import Mathlib

/-!
Shallow embedding of the risk-assessment and session-management core of the
Mann-Mitra application, translated from the TypeScript sources
`src/utils/crisisDetection.ts`, `src/services/aiOrchestrator.ts` and
`src/services/geminiAI.ts` (class `SessionManager`), together with theorems
settling the specification claims about that core.

Conventions of the embedding:
- JavaScript numbers are modelled as `ℚ` (all literals in the sources are
  exact decimals), timestamps (`Date` values, `Date.now()`) as `Nat`
  milliseconds supplied explicitly as a `now` parameter.
- Possibly-`undefined` values are `Option`; the JavaScript truthiness and
  `||`-defaulting idioms are modelled by the `js*` helpers below.
- External effects (the hosted LLM, the camera-based emotion detector) are
  modelled as oracle inputs: the value the external call would produce is a
  parameter, and a call that may throw is an `Except` parameter.
- `Map` objects keyed by strings are association lists.
-/

namespace MannMitra

/-! ## JavaScript-idiom helpers -/

/-- JavaScript `toLowerCase` restricted to ASCII letters (the only cased
characters occurring in the lexicons; Devanagari has no case).  Implemented
structurally so that concrete inputs evaluate inside the kernel. -/
def jsLowerChar (c : Char) : Char :=
  if 65 ≤ c.toNat ∧ c.toNat ≤ 90 then Char.ofNat (c.toNat + 32) else c

/-- The `String.prototype.toLowerCase`. -/
def jsToLower (s : String) : String :=
  ⟨s.data.map jsLowerChar⟩

/-- Substring test on character lists: `jsCharsInclude n h = true` iff `n` occurs
contiguously in `h`.  Models JavaScript `String.prototype.includes`. -/
def jsCharsInclude (needle : List Char) : List Char → Bool
  | [] => needle.isEmpty
  | c :: t => needle.isPrefixOf (c :: t) || jsCharsInclude needle t

/-- The `haystack.includes(needle)` on strings. -/
def jsContains (haystack needle : String) : Bool :=
  jsCharsInclude needle.data haystack.data

/-- JavaScript `x || d` for an optional string (`undefined` and `""` are falsy). -/
def jsStrOr (o : Option String) (d : String) : String :=
  match o with
  | Option.none => d
  | Option.some s => if s = "" then d else s

/-- JavaScript `x || d` for an optional number (`undefined` and `0` are falsy). -/
def jsNumOr (o : Option ℚ) (d : ℚ) : ℚ :=
  match o with
  | Option.none => d
  | Option.some x => if x = 0 then d else x

/-- JavaScript `x > c` where `x` may be `undefined` (then the comparison is false). -/
def jsGt (o : Option ℚ) (c : ℚ) : Bool :=
  match o with
  | Option.none => false
  | Option.some x => decide (c < x)

/-- JavaScript `x < c` where `x` may be `undefined` (then the comparison is false). -/
def jsLt (o : Option ℚ) (c : ℚ) : Bool :=
  match o with
  | Option.none => false
  | Option.some x => decide (x < c)

/-- Truthiness of an optional string (`undefined` and `""` are falsy). -/
def jsTruthyStr (o : Option String) : Bool :=
  match o with
  | Option.none => false
  | Option.some s => s ≠ ""

/-- Lookup in a string-keyed `Map` modelled as an association list. -/
def mapGet {α : Type} (m : List (String × α)) (k : String) : Option α :=
  (m.find? (fun p => p.1 = k)).map (fun p => p.2)

/-- The `Map.set`: replace the binding of `k` if present, otherwise append it. -/
def mapSet {α : Type} (m : List (String × α)) (k : String) (v : α) :
    List (String × α) :=
  if (m.find? (fun p => p.1 = k)).isSome then
    m.map (fun p => if p.1 = k then (k, v) else p)
  else
    m ++ [(k, v)]

/-- The `Map.delete`. -/
def mapDelete {α : Type} (m : List (String × α)) (k : String) :
    List (String × α) :=
  m.filter (fun p => p.1 ≠ k)

/-- The last `n` elements of a list, in order: JavaScript `arr.slice(-n)`
for an array longer than `n` (and the whole array otherwise). -/
def lastN {α : Type} (n : Nat) (l : List α) : List α :=
  (l.reverse.take n).reverse

/-! ## `src/utils/crisisDetection.ts` -/

/-- The `CrisisLevel` union type. -/
inductive CrisisLevel
  | none
  | low
  | moderate
  | high
  | severe
deriving DecidableEq, Repr

/-- The `CRISIS_KEYWORDS`, flattened in the iteration order
`english ++ hindi ++ mixed` used by `Object.values(...).flat()`. -/
def CRISIS_KEYWORDS : List String :=
  ["suicide", "kill myself", "end it all", "no point living", "want to die",
   "hurt myself", "self harm", "cut myself", "overdose", "jump off",
   "hang myself", "not worth living", "better off dead", "end my life",
   "kill me", "want to disappear", "can\x27t go on", "give up on life",
   "आत्महत्या", "मरना चाहता", "जीना नहीं चाहता", "खुद को नुकसान",
   "मौत चाहिए", "जीने का मतलब नहीं", "खुद को मारना", "छोड़ देना चाहता",
   "जीवन समाप्त", "मरने का मन", "जीने की इच्छा नहीं", "आत्महत्या करना",
   "suicide करना", "मरना want", "life end करना", "खुद को hurt",
   "death चाहिए", "जीना नहीं want", "kill myself करना"]

/-- The `HIGH_RISK_INDICATORS`, flattened in iteration order `english ++ hindi`. -/
def HIGH_RISK_INDICATORS : List String :=
  ["hopeless", "worthless", "trapped", "burden", "alone forever",
   "no escape", "can\x27t cope", "unbearable pain", "nothing matters",
   "empty inside", "lost everything", "no future", "pointless",
   "निराश", "बेकार", "फंसा हुआ", "बोझ", "हमेशा अकेला",
   "कोई रास्ता नहीं", "सह नहीं सकता", "असहनीय दर्द", "कुछ मतलब नहीं",
   "अंदर से खाली", "सब कुछ खो दिया", "कोई भविष्य नहीं", "व्यर्थ"]

/-- The `CrisisAssessment` interface. -/
structure CrisisAssessment where
  level : CrisisLevel
  confidence : ℚ
  triggeredKeywords : List String
  recommendedAction : String
  immediateResponse : String
deriving Repr

/-- One pass of the keyword loops in `assessCrisisLevel`: fold over a keyword
list, adding `w` to the score and recording the keyword for each
case-insensitive substring hit. -/
def keywordFold (lowerText : String) (w : Nat) (kws : List String)
    (init : Nat × List String) : Nat × List String :=
  kws.foldl
    (fun acc kw =>
      if jsContains lowerText (jsToLower kw) then (acc.1 + w, acc.2 ++ [kw]) else acc)
    init

/-- The `assessCrisisLevel` from `crisisDetection.ts`. -/
def assessCrisisLevel (text : String) : CrisisAssessment :=
  let lowerText := (jsToLower text)
  let acc1 := keywordFold lowerText 10 CRISIS_KEYWORDS (0, [])
  let acc2 := keywordFold lowerText 5 HIGH_RISK_INDICATORS acc1
  let score :=
    acc2.1 +
      (if jsContains lowerText "plan" &&
          (jsContains lowerText "hurt" || jsContains lowerText "end") then 8 else 0)
  let score :=
    score +
      (if jsContains lowerText "tonight" || jsContains lowerText "today" ||
          jsContains lowerText "now" then 3 else 0)
  let triggeredKeywords := acc2.2
  if 15 ≤ score then
    { level := CrisisLevel.severe, confidence := 9/10, triggeredKeywords,
      recommendedAction := "immediate_intervention",
      immediateResponse := "मुझे आपकी बहुत चिंता है। कृपया तुरंत किसी professional से बात करें। / I\x27m very concerned about you. Please talk to a professional immediately." }
  else if 10 ≤ score then
    { level := CrisisLevel.high, confidence := 8/10, triggeredKeywords,
      recommendedAction := "crisis_resources",
      immediateResponse := "आप अकेले नहीं हैं। मदद उपलब्ध है। / You are not alone. Help is available." }
  else if 5 ≤ score then
    { level := CrisisLevel.moderate, confidence := 6/10, triggeredKeywords,
      recommendedAction := "supportive_resources",
      immediateResponse := "मैं समझ सकता हूं यह कठिन समय है। आइए कुछ सहायक तकनीकें try करते हैं। / I understand this is a difficult time. Let\x27s try some supportive techniques." }
  else if 2 ≤ score then
    { level := CrisisLevel.low, confidence := 4/10, triggeredKeywords,
      recommendedAction := "monitoring",
      immediateResponse := "आपकी भावनाएं समझ में आती हैं। मैं यहां आपको सुनने के लिए हूं। / Your feelings are understandable. I\x27m here to listen." }
  else
    { level := CrisisLevel.none, confidence := 0, triggeredKeywords,
      recommendedAction := "", immediateResponse := "" }

/-! ### The scoring rule as the specification states it (for refinement) -/

/-- Number of lexicon entries matching the (lowercased) text. -/
def countMatches (lowerText : String) (kws : List String) : Nat :=
  (kws.filter (fun kw => jsContains lowerText (jsToLower kw))).length

/-- The score exactly as the specification describes it: 10 per direct crisis
phrase, 5 per high-risk indicator, +8 for a plan token together with a harm
token, +3 for an immediacy token. -/
def specScore (text : String) : Nat :=
  let lowerText := (jsToLower text)
  10 * countMatches lowerText CRISIS_KEYWORDS +
    5 * countMatches lowerText HIGH_RISK_INDICATORS +
    (if jsContains lowerText "plan" &&
        (jsContains lowerText "hurt" || jsContains lowerText "end") then 8 else 0) +
    (if jsContains lowerText "tonight" || jsContains lowerText "today" ||
        jsContains lowerText "now" then 3 else 0)

/-- The threshold table of the specification:
score≥15→severe, ≥10→high, ≥5→moderate, ≥2→low, else none. -/
def specLevelTable (score : Nat) : CrisisLevel :=
  if 15 ≤ score then CrisisLevel.severe
  else if 10 ≤ score then CrisisLevel.high
  else if 5 ≤ score then CrisisLevel.moderate
  else if 2 ≤ score then CrisisLevel.low
  else CrisisLevel.none

/-! ### Scanner lemmas shared by several claims -/

theorem keywordFold_score (lowerText : String) (w : Nat) (kws : List String)
    (init : Nat × List String) :
    (keywordFold lowerText w kws init).1 =
      init.1 + w * countMatches lowerText kws := by
  induction kws generalizing init with
  | nil => simp [keywordFold, countMatches]
  | cons k t ih =>
      simp only [keywordFold, List.foldl_cons]
      by_cases h : jsContains lowerText (jsToLower k) = true
      · rw [if_pos h]
        have ht := ih (init.1 + w, init.2 ++ [k])
        simp only [keywordFold] at ht
        rw [ht]
        simp only [countMatches, List.filter_cons, h, if_pos,
          List.length_cons, Nat.mul_succ]
        omega
      · rw [if_neg h]
        have ht := ih init
        simp only [keywordFold] at ht
        rw [ht]
        simp [countMatches, List.filter_cons, h]

theorem assessCrisisLevel_level (text : String) :
    (assessCrisisLevel text).level = specLevelTable (specScore text) := by
  simp only [assessCrisisLevel, specScore, specLevelTable]
  rw [keywordFold_score, keywordFold_score]
  simp only [Nat.zero_add, Bool.and_eq_true, Bool.or_eq_true]
  set s := 10 * countMatches (jsToLower text) CRISIS_KEYWORDS +
      5 * countMatches (jsToLower text) HIGH_RISK_INDICATORS +
      (if jsContains (jsToLower text) "plan" = true ∧
          (jsContains (jsToLower text) "hurt" = true ∨ jsContains (jsToLower text) "end" = true)
        then 8 else 0) +
      (if (jsContains (jsToLower text) "tonight" = true ∨
            jsContains (jsToLower text) "today" = true) ∨
          jsContains (jsToLower text) "now" = true then 3 else 0) with hs
  by_cases h15 : 15 ≤ s
  · rw [if_pos h15, if_pos h15]
  · rw [if_neg h15, if_neg h15]
    by_cases h10 : 10 ≤ s
    · rw [if_pos h10, if_pos h10]
    · rw [if_neg h10, if_neg h10]
      by_cases h5 : 5 ≤ s
      · rw [if_pos h5, if_pos h5]
      · rw [if_neg h5, if_neg h5]
        by_cases h2 : 2 ≤ s
        · rw [if_pos h2, if_pos h2]
        · rw [if_neg h2, if_neg h2]

theorem specScore_ge_of_crisis_match (text : String)
    (h : ∃ kw ∈ CRISIS_KEYWORDS, jsContains (jsToLower text) (jsToLower kw) = true) :
    10 ≤ specScore text := by
  obtain ⟨kw, hmem, hc⟩ := h
  have hcount : 1 ≤ countMatches (jsToLower text) CRISIS_KEYWORDS := by
    unfold countMatches
    have hmem2 : kw ∈ (CRISIS_KEYWORDS.filter
        (fun kw => jsContains (jsToLower text) (jsToLower kw))) :=
      List.mem_filter.mpr ⟨hmem, hc⟩
    exact List.length_pos.mpr (List.ne_nil_of_mem hmem2)
  have h10 : 10 ≤ 10 * countMatches (jsToLower text) CRISIS_KEYWORDS := by omega
  simp only [specScore]
  omega

/-! ## Data model of `src/services/geminiAI.ts` (class `SessionManager`) -/

/-- The `RiskAssessment` interface of `geminiAI.ts`. -/
structure RiskAssessment where
  timestamp : Nat
  level : CrisisLevel
  indicators : List String
  protectiveFactors : List String
  interventions : List String
  followUpRequired : Bool
  professionalReferral : Bool
  confidence : Option ℚ
deriving Repr

/-- The source of an `EmotionalDataPoint`. -/
inductive EmotionSource
  | text
  | voice
  | facial
  | behavioral
deriving DecidableEq, Repr

/-- The `EmotionalDataPoint` interface. -/
structure EmotionalDataPoint where
  timestamp : Nat
  primaryEmotion : String
  intensity : ℚ
  valence : ℚ
  arousal : ℚ
  confidence : ℚ
  source : EmotionSource
  contextualFactors : List String
deriving Repr

/-- The `ProgressMetrics` interface. -/
structure ProgressMetrics where
  emotionalRegulation : ℚ
  selfAwareness : ℚ
  copingSkillsUsage : ℚ
  therapeuticAlliance : ℚ
  goalProgress : List (String × ℚ)
  riskReduction : ℚ
  engagementLevel : ℚ
  sessionSatisfaction : ℚ
deriving Repr

/-- Metadata attached to a `SessionInteraction` (all fields optional). -/
structure InteractionMeta where
  interactionType : Option String
  confidence : Option ℚ
  interventionType : Option String
  effectiveness : Option ℚ
deriving Repr

/-- The `SessionInteraction` interface (`type` is one of `user_message`,
`ai_response`, `emotion_detected`, `voice_analysis`, `action_taken`). -/
structure SessionInteraction where
  timestamp : Nat
  type : String
  content : String
  metadata : InteractionMeta
deriving Repr

/-- The `AIAdaptation` interface. -/
structure AIAdaptation where
  timestamp : Nat
  adaptationType : String
  previousValue : String
  newValue : String
  reason : String
  effectiveness : ℚ
deriving Repr

/-- The `CulturalSessionContext` interface. -/
structure CulturalSessionContext where
  languagePreference : String
  culturalReferences : List String
  familyDynamics : List String
  socialContext : List String
  religiousConsiderations : List String
  generationalFactors : List String
deriving Repr

/-- The `SessionOutcome` interface. -/
structure SessionOutcome where
  overallMood : String
  goalsAddressed : List String
  skillsPracticed : List String
  insightsGained : List String
  nextSessionRecommendations : List String
  homeworkAssigned : List String
  riskStatus : String
deriving Repr

/-- The `UserSession` interface. -/
structure UserSession where
  sessionId : String
  userId : String
  startTime : Nat
  endTime : Option Nat
  duration : Nat
  sessionType : String
  interactions : List SessionInteraction
  emotionalJourney : List EmotionalDataPoint
  therapeuticGoals : List String
  progressMetrics : ProgressMetrics
  aiAdaptations : List AIAdaptation
  culturalContext : CulturalSessionContext
  riskAssessments : List RiskAssessment
  outcomes : SessionOutcome
deriving Repr

/-- The `TherapeuticPlan` interface. -/
structure TherapeuticPlan where
  userId : String
  createdDate : Nat
  lastUpdated : Nat
  primaryGoals : List String
  secondaryGoals : List String
  interventionStrategies : List String
  culturalConsiderations : List String
  riskFactors : List String
  protectiveFactors : List String
  progressMilestones : List (String × Bool)
  adaptiveStrategies : List String
deriving Repr

/-! ## `src/services/aiOrchestrator.ts` -/

/-- The `UserContext.mentalHealthHistory`. -/
structure MentalHealthHistory where
  previousSessions : Nat
  primaryConcerns : List String
  therapeuticGoals : List String
  riskFactors : List String
  protectiveFactors : List String
deriving Repr

/-- The `UserContext.demographics` (every field optional). -/
structure Demographics where
  age : Option Nat
  gender : Option String
  location : Option String
  language : Option String
  culturalBackground : Option String
deriving Repr

/-- The `UserContext.currentState` (every field optional; the opaque
`emotionalState: any` is never read by the modelled code and is omitted). -/
structure CurrentState where
  stressLevel : Option ℚ
  recentTriggers : Option (List String)
  copingStrategies : Option (List String)
deriving Repr

/-- The orchestrator-side `UserContext` interface. -/
structure UserContext where
  userId : String
  demographics : Demographics
  mentalHealthHistory : MentalHealthHistory
  currentState : CurrentState
deriving Repr

/-- The default `UserContext` created by `getUserContext` for an unknown user. -/
def defaultUserContext (userId : String) : UserContext :=
  { userId,
    demographics :=
      { age := Option.none, gender := Option.none, location := Option.none,
        language := Option.none, culturalBackground := Option.none },
    mentalHealthHistory :=
      { previousSessions := 0, primaryConcerns := [], therapeuticGoals := [],
        riskFactors := [], protectiveFactors := [] },
    currentState :=
      { stressLevel := Option.none, recentTriggers := Option.none,
        copingStrategies := Option.none } }

/-- Result shape of `analyzeTextContent` (the LLM JSON parse, or the defaults
substituted by its `catch`).  None of its fields are read by later steps. -/
structure TextAnalysis where
  themes : List String
  emotions : List String
  cognitivePatterns : List String
  behavioralIndicators : List String
  strengths : List String
deriving Repr

/-- The `emotionalKeywords` table of `analyzeEmotionalContent`, in object
insertion order. -/
def emotionalKeywords : List (String × List String) :=
  [("anxiety", ["worried", "nervous", "scared", "panic", "चिंता", "घबराहट"]),
   ("depression", ["sad", "hopeless", "empty", "worthless", "उदास", "निराश"]),
   ("stress", ["overwhelmed", "pressure", "burden", "तनाव", "दबाव"]),
   ("anger", ["frustrated", "angry", "mad", "irritated", "गुस्सा", "नाराज"]),
   ("joy", ["happy", "excited", "good", "great", "खुश", "अच्छा"])]

/-- One entry of `detectedEmotions`: category name, intensity, matched keywords. -/
structure DetectedEmotion where
  name : String
  intensity : ℚ
  keywords : List String
deriving Repr

/-- Result of `analyzeEmotionalContent`. -/
structure EmotionalContentAnalysis where
  primaryEmotion : String
  emotionIntensity : ℚ
  detectedEmotions : List DetectedEmotion
  valence : ℚ
  arousal : ℚ
deriving Repr

/-- The `calculateValence` from `aiOrchestrator.ts`. -/
def calculateValence (emotions : List DetectedEmotion) : ℚ :=
  let positiveEmotions := ["joy", "excitement", "hope"]
  let negativeEmotions := ["sadness", "anxiety", "anger", "depression"]
  let positiveScore :=
    (emotions.filter (fun e => positiveEmotions.contains e.name)).foldl
      (fun s e => s + e.intensity) 0
  let negativeScore :=
    (emotions.filter (fun e => negativeEmotions.contains e.name)).foldl
      (fun s e => s + e.intensity) 0
  (positiveScore - negativeScore) / max (positiveScore + negativeScore) 1

/-- The `calculateArousal` from `aiOrchestrator.ts`. -/
def calculateArousal (emotions : List DetectedEmotion) : ℚ :=
  let highArousalEmotions := ["anxiety", "anger", "excitement", "panic"]
  let lowArousalEmotions := ["sadness", "depression", "calm"]
  let arousalScore :=
    emotions.foldl
      (fun s e =>
        if highArousalEmotions.contains e.name then s + e.intensity * (3/10)
        else if lowArousalEmotions.contains e.name then s - e.intensity * (2/10)
        else s)
      (1/2)
  max 0 (min 1 arousalScore)

/-- The `analyzeEmotionalContent` from `aiOrchestrator.ts`. -/
def analyzeEmotionalContent (message : String) : EmotionalContentAnalysis :=
  let lowerMessage := jsToLower message
  let detected : List DetectedEmotion :=
    emotionalKeywords.filterMap (fun p =>
      let ms := p.2.filter (fun kw => jsContains lowerMessage kw)
      if 0 < ms.length then
        Option.some
          { name := p.1, intensity := min 1 ((ms.length : ℚ) * (3/10)),
            keywords := ms }
      else Option.none)
  { primaryEmotion := ((detected.head?).map (fun e => e.name)).getD "neutral",
    emotionIntensity := detected.foldl (fun m e => max m e.intensity) (1/10),
    detectedEmotions := detected,
    valence := calculateValence detected,
    arousal := calculateArousal detected }

/-- A character in the Devanagari block `[ऀ-ॿ]`. -/
def isDevanagari (c : Char) : Bool :=
  0x900 ≤ c.toNat && c.toNat ≤ 0x97F

/-- A character matching `[a-zA-Z]`. -/
def isEnglishLetter (c : Char) : Bool :=
  (65 ≤ c.toNat && c.toNat ≤ 90) || (97 ≤ c.toNat && c.toNat ≤ 122)

/-- The `detectLanguageMixing` from `aiOrchestrator.ts`. -/
def detectLanguageMixing (message : String) : ℚ :=
  let hasHindi := message.data.any isDevanagari
  let hasEnglish := message.data.any isEnglishLetter
  if hasHindi && hasEnglish then 8/10 else 0

/-- The `detectLanguagePreference` from `aiOrchestrator.ts`. -/
def detectLanguagePreference (message : String) : String :=
  let hasHindi := message.data.any isDevanagari
  let hasEnglish := message.data.any isEnglishLetter
  if hasHindi && hasEnglish then "mixed"
  else if hasHindi then "hindi"
  else "english"

/-- The `detectFormalityLevel` from `aiOrchestrator.ts`. -/
def detectFormalityLevel (message : String) : ℚ :=
  let formalMarkers := ["आप", "जी", "sir", "madam", "please", "thank you"]
  let informalMarkers := ["तू", "तुम", "yaar", "bro", "dude"]
  let lowerMessage := jsToLower message
  let formalCount :=
    ((formalMarkers.filter (fun m => jsContains lowerMessage m)).length : ℚ)
  let informalCount :=
    ((informalMarkers.filter (fun m => jsContains lowerMessage m)).length : ℚ)
  formalCount / max (formalCount + informalCount) 1

/-- Result of `analyzeCulturalContext`. -/
structure CulturalAnalysis where
  languagePreference : String
  culturalThemes : List String
  formalityLevel : ℚ
  generationalFactors : List String
deriving Repr

/-- The four keyword-list entries of `culturalIndicators`, in insertion order
(the fifth entry, `languageMixing`, is a number and is handled separately). -/
def culturalIndicatorLists : List (String × List String) :=
  [("familyReferences",
    ["family", "parents", "mom", "dad", "परिवार", "माता-पिता", "मम्मी", "पापा"]),
   ("socialPressure",
    ["society", "log kya kahenge", "people say", "समाज", "लोग क्या कहेंगे"]),
   ("academicPressure",
    ["studies", "exam", "marks", "career", "पढ़ाई", "परीक्षा", "नंबर"]),
   ("religiousReferences",
    ["god", "prayer", "temple", "भगवान", "प्रार्थना", "मंदिर"])]

/-- The `analyzeCulturalContext` from `aiOrchestrator.ts` (its `userContext`
parameter is never read by the body and is omitted). -/
def analyzeCulturalContext (message : String) : CulturalAnalysis :=
  let lowerMessage := jsToLower message
  let listThemes :=
    (culturalIndicatorLists.filter
      (fun p => p.2.any (fun kw => jsContains lowerMessage kw))).map
      (fun p => p.1)
  let mixThemes :=
    if (3/10 : ℚ) < detectLanguageMixing message then ["languageMixing"] else []
  { languagePreference := detectLanguagePreference message,
    culturalThemes := listThemes ++ mixThemes,
    formalityLevel := detectFormalityLevel message,
    generationalFactors := [] }

/-- Result of `assessRiskFactors`; `level` is an `Option` because the object
is replaced by `{}` (all fields `undefined`) when the step faults and
`analyzeUserMessage` falls back to its partially-built analysis. -/
structure RiskAnalysis where
  level : Option CrisisLevel
  indicators : List String
  protectiveFactors : List String
  immediateIntervention : Bool
deriving Repr

/-- The empty `riskAnalysis := {}` placeholder left behind when
`assessRiskFactors` throws. -/
def emptyRiskAnalysis : RiskAnalysis :=
  { level := Option.none, indicators := [], protectiveFactors := [],
    immediateIntervention := false }

/-- JavaScript `riskAnalysis.level !== ’none’`: `undefined` also counts as
different from `’none’`. -/
def jsLevelNeqNone (o : Option CrisisLevel) : Bool :=
  match o with
  | Option.none => true
  | Option.some l => l ≠ CrisisLevel.none

/-- The `suicidalIdeation` lexicon of `assessRiskFactors`. -/
def suicidalIdeationKeywords : List String :=
  ["suicide", "kill myself", "end it all", "आत्महत्या", "मरना चाहता"]

/-- The `riskIndicators` table of `assessRiskFactors`, in insertion order. -/
def riskIndicatorLists : List (String × List String) :=
  [("suicidalIdeation", suicidalIdeationKeywords),
   ("selfHarm", ["hurt myself", "cut", "harm", "खुद को नुकसान"]),
   ("hopelessness",
    ["no hope", "pointless", "no future", "कोई उम्मीद नहीं", "बेकार"]),
   ("isolation", ["alone", "no one", "lonely", "अकेला", "कोई नहीं"]),
   ("substanceUse", ["drink", "drugs", "alcohol", "शराब", "नशा"])]

/-- The `protectiveFactors` table of `assessRiskFactors`, in insertion order. -/
def protectiveFactorLists : List (String × List String) :=
  [("socialSupport", ["friends", "family", "support", "दोस्त", "परिवार", "सहारा"]),
   ("copingStrategies", ["meditation", "exercise", "music", "ध्यान", "व्यायाम"]),
   ("futureOrientation", ["future", "goals", "dreams", "भविष्य", "सपने"]),
   ("helpSeeking", ["help", "therapy", "counseling", "मदद", "सलाह"])]

/-- The `assessRiskFactors` from `aiOrchestrator.ts` (its `conversationContext`
parameter is never read by the body and is omitted). -/
def assessRiskFactors (message : String) (userContext : UserContext) :
    RiskAnalysis :=
  let lowerMessage := jsToLower message
  let indicators :=
    (riskIndicatorLists.filter
      (fun p => p.2.any (fun kw => jsContains lowerMessage kw))).map
      (fun p => p.1)
  let protective :=
    (protectiveFactorLists.filter
      (fun p => p.2.any (fun kw => jsContains lowerMessage kw))).map
      (fun p => p.1)
  if indicators.contains "suicidalIdeation" then
    { level := Option.some CrisisLevel.severe, indicators,
      protectiveFactors := protective, immediateIntervention := true }
  else if 2 ≤ indicators.length then
    { level := Option.some CrisisLevel.high, indicators,
      protectiveFactors := protective, immediateIntervention := false }
  else if indicators.length = 1 then
    { level := Option.some CrisisLevel.moderate, indicators,
      protectiveFactors := protective, immediateIntervention := false }
  else if 0 < userContext.mentalHealthHistory.riskFactors.length then
    { level := Option.some CrisisLevel.low, indicators,
      protectiveFactors := protective, immediateIntervention := false }
  else
    { level := Option.some CrisisLevel.none, indicators,
      protectiveFactors := protective, immediateIntervention := false }

/-- The fully assembled result of `analyzeUserMessage`. -/
structure MessageAnalysis where
  textAnalysis : TextAnalysis
  emotionalAnalysis : EmotionalContentAnalysis
  culturalAnalysis : CulturalAnalysis
  riskAnalysis : RiskAnalysis
  therapeuticNeeds : List String
deriving Repr

/-- The `identifyTherapeuticNeeds` from `aiOrchestrator.ts`. -/
def identifyTherapeuticNeeds (emotional : EmotionalContentAnalysis)
    (cultural : CulturalAnalysis) (risk : RiskAnalysis) : List String :=
  (if emotional.primaryEmotion = "anxiety" then
    ["anxiety_management", "grounding_techniques"] else []) ++
  (if emotional.primaryEmotion = "depression" then
    ["mood_enhancement", "behavioral_activation"] else []) ++
  (if emotional.primaryEmotion = "stress" then
    ["stress_management", "relaxation_techniques"] else []) ++
  (if jsLevelNeqNone risk.level then
    ["crisis_intervention", "safety_planning"] else []) ++
  (if cultural.culturalThemes.contains "familyReferences" then
    ["family_therapy_techniques"] else []) ++
  (if cultural.culturalThemes.contains "academicPressure" then
    ["academic_stress_management"] else [])

/-- Fault-injection and oracle environment for one
`generateTherapeuticResponse` call.  `textAnalysis` stands for the value the
LLM-backed `analyzeTextContent` produced (it never throws past its own
`catch`); `llmReply` is the reply text of `geminiAI.generateResponse` (also
total: its `catch` substitutes a canned demo reply); `riskFault` injects an
exception inside `assessRiskFactors` (caught by `analyzeUserMessage`);
`lateFault` injects an exception reaching the orchestrator’s outermost
`catch` (which substitutes `generateFallbackResponse`). -/
structure OrchestratorEnv where
  userContext : UserContext
  textAnalysis : TextAnalysis
  llmReply : String
  riskAssessmentArg : Option RiskAssessment
  riskFault : Bool
  lateFault : Bool

/-- The `analyzeUserMessage` from `aiOrchestrator.ts`: on an exception in a step,
its `catch` returns the analysis object as built so far, so a fault in
`assessRiskFactors` leaves `riskAnalysis = {}` and `therapeuticNeeds = []`. -/
def analyzeUserMessage (message : String) (env : OrchestratorEnv) :
    MessageAnalysis :=
  let emotional := analyzeEmotionalContent message
  let cultural := analyzeCulturalContext message
  if env.riskFault then
    { textAnalysis := env.textAnalysis, emotionalAnalysis := emotional,
      culturalAnalysis := cultural, riskAnalysis := emptyRiskAnalysis,
      therapeuticNeeds := [] }
  else
    let risk := assessRiskFactors message env.userContext
    { textAnalysis := env.textAnalysis, emotionalAnalysis := emotional,
      culturalAnalysis := cultural, riskAnalysis := risk,
      therapeuticNeeds := identifyTherapeuticNeeds emotional cultural risk }

/-- Result of `determineInterventionStrategy`. -/
structure InterventionStrategy where
  primary : String
  secondary : List String
  approach : String
  urgency : String
deriving DecidableEq, Repr

/-- The `determineInterventionStrategy` from `aiOrchestrator.ts`.  Its
`userContext` and optional `riskAssessment` parameters are accepted but never
read: the branch conditions inspect `messageAnalysis.riskAnalysis.level`. -/
def determineInterventionStrategy (messageAnalysis : MessageAnalysis)
    (userContext : UserContext) (riskAssessment : Option RiskAssessment) :
    InterventionStrategy :=
  if messageAnalysis.riskAnalysis.level = Option.some CrisisLevel.severe then
    { primary := "crisis_intervention",
      secondary := ["validation", "safety_planning"],
      approach := "directive", urgency := "immediate" }
  else if messageAnalysis.riskAnalysis.level = Option.some CrisisLevel.high then
    { primary := "risk_management",
      secondary := ["validation", "cognitive_restructuring"],
      approach := "supportive_directive", urgency := "high" }
  else
    let primaryNeeds := messageAnalysis.therapeuticNeeds
    let primaryIntervention :=
      if primaryNeeds.contains "anxiety_management" then "mindfulness"
      else if primaryNeeds.contains "mood_enhancement" then
        "behavioral_activation"
      else if primaryNeeds.contains "stress_management" then
        "cognitive_restructuring"
      else "validation"
    { primary := primaryIntervention,
      secondary := ["validation", "psychoeducation"],
      approach := "collaborative", urgency := "standard" }

/-- The declared union type of `TherapeuticResponse.interventionType` in
`aiOrchestrator.ts` (line 10). -/
def interventionTypeVocabulary : List String :=
  ["validation", "cognitive_restructuring", "mindfulness",
   "crisis_intervention", "psychoeducation", "behavioral_activation"]

/-- The `TherapeuticResponse.culturalAdaptation`. -/
structure CulturalAdaptation where
  language : String
  culturalReferences : List String
  respectLevel : String
deriving Repr

/-- The `TherapeuticResponse.emotionalSupport`. -/
structure EmotionalSupport where
  empathyLevel : ℚ
  validationStrategies : List String
  copingStrategies : List String
deriving Repr

/-- The `TherapeuticResponse.riskAssessment`; `level` is an `Option` because on
the fault path `messageAnalysis.riskAnalysis.level` is `undefined`. -/
structure ResponseRiskAssessment where
  level : Option CrisisLevel
  indicators : List String
  immediateActions : List String
  confidence : Option ℚ
deriving Repr

/-- The `TherapeuticResponse.followUp`. -/
structure FollowUp where
  recommended : Bool
  timeframe : String
  focus : List String
deriving Repr

/-- The `TherapeuticResponse.resources`. -/
structure Resources where
  selfHelp : List String
  professional : List String
  emergency : List String
deriving Repr

/-- The `TherapeuticResponse` interface.  `interventionType` is modelled as a
plain string precisely because the claims concern whether its runtime values
stay inside `interventionTypeVocabulary`. -/
structure TherapeuticResponse where
  message : String
  interventionType : String
  culturalAdaptation : CulturalAdaptation
  emotionalSupport : EmotionalSupport
  riskAssessment : ResponseRiskAssessment
  followUp : FollowUp
  resources : Resources
deriving Repr

/-- The `calculateEmpathyLevel` from `aiOrchestrator.ts`. -/
def calculateEmpathyLevel (analysis : MessageAnalysis) : ℚ :=
  let emotionIntensity := analysis.emotionalAnalysis.emotionIntensity
  let base : ℚ := 7/10
  let base := if (7/10 : ℚ) < emotionIntensity then base + 2/10 else base
  let base := if jsLevelNeqNone analysis.riskAnalysis.level then base + 1/10 else base
  min 1 base

/-- The `getValidationStrategies` from `aiOrchestrator.ts`. -/
def getValidationStrategies (analysis : MessageAnalysis) : List String :=
  ["acknowledge_feelings", "normalize_experience"] ++
  (if analysis.culturalAnalysis.culturalThemes.contains "familyReferences" then
    ["validate_family_dynamics"] else []) ++
  (if analysis.culturalAnalysis.culturalThemes.contains "academicPressure" then
    ["validate_academic_stress"] else [])

/-- The `getCopingStrategies` from `aiOrchestrator.ts`. -/
def getCopingStrategies (analysis : MessageAnalysis) : List String :=
  let primaryEmotion := analysis.emotionalAnalysis.primaryEmotion
  ["deep_breathing"] ++
  (if primaryEmotion = "anxiety" then
    ["grounding_techniques", "progressive_relaxation"]
  else if primaryEmotion = "depression" then
    ["behavioral_activation", "social_connection"]
  else if primaryEmotion = "stress" then
    ["time_management", "prioritization"]
  else [])

/-- The `getImmediateActions` from `aiOrchestrator.ts`. -/
def getImmediateActions (riskAnalysis : RiskAnalysis) : List String :=
  if riskAnalysis.level = Option.some CrisisLevel.severe then
    ["contact_emergency_services", "ensure_safety", "contact_trusted_person"]
  else if riskAnalysis.level = Option.some CrisisLevel.high then
    ["schedule_professional_help", "activate_support_network"]
  else if riskAnalysis.level = Option.some CrisisLevel.moderate then
    ["practice_coping_strategies", "reach_out_to_support"]
  else []

/-- The `getFollowUpTimeframe` from `aiOrchestrator.ts` (an `undefined` level
falls through the lookup to `’as needed’`). -/
def getFollowUpTimeframe (level : Option CrisisLevel) : String :=
  match level with
  | Option.some CrisisLevel.severe => "immediate"
  | Option.some CrisisLevel.high => "within 24 hours"
  | Option.some CrisisLevel.moderate => "within 2-3 days"
  | Option.some CrisisLevel.low => "within a week"
  | Option.some CrisisLevel.none => "as needed"
  | Option.none => "as needed"

/-- The `getSelfHelpResources` from `aiOrchestrator.ts`. -/
def getSelfHelpResources (analysis : MessageAnalysis) : List String :=
  ["mindfulness_apps", "breathing_exercises"] ++
  (if analysis.culturalAnalysis.languagePreference ≠ "english" then
    ["hindi_meditation_resources"] else [])

/-- The `getProfessionalResources` from `aiOrchestrator.ts`. -/
def getProfessionalResources (culturalContext : CulturalAnalysis) :
    List String :=
  ["local_therapists", "online_counseling"] ++
  (if culturalContext.culturalThemes.contains "familyReferences" then
    ["family_therapy_specialists"] else [])

/-- The `getEmergencyResources` from `aiOrchestrator.ts`. -/
def getEmergencyResources : List String :=
  ["National Suicide Prevention Helpline: 9152987821",
   "Vandrevala Foundation: 9999666555",
   "iCall: 9152987821"]

/-- The `getFallbackMessage` from `aiOrchestrator.ts`. -/
def getFallbackMessage (analysis : MessageAnalysis) : String :=
  let emotion := analysis.emotionalAnalysis.primaryEmotion
  if emotion = "anxiety" then
    "I understand you\x27re feeling anxious. Take a deep breath with me. You\x27re not alone in this."
  else if emotion = "depression" then
    "I hear that you\x27re going through a difficult time. Your feelings are valid, and there is hope."
  else if emotion = "stress" then
    "It sounds like you\x27re under a lot of pressure. Let\x27s work together to find some relief."
  else
    "Thank you for sharing with me. I\x27m here to support you through whatever you\x27re experiencing."

/-- The `generateFallbackResponse` from `aiOrchestrator.ts`: the canned response
substituted by the orchestrator’s outermost `catch`.  Note its risk level is
the literal `’none’`. -/
def generateFallbackResponse : TherapeuticResponse :=
  { message := "I\x27m here to listen and support you. Could you tell me more about how you\x27re feeling right now?",
    interventionType := "validation",
    culturalAdaptation :=
      { language := "mixed", culturalReferences := [], respectLevel := "casual" },
    emotionalSupport :=
      { empathyLevel := 8/10, validationStrategies := ["acknowledge_feelings"],
        copingStrategies := ["deep_breathing"] },
    riskAssessment :=
      { level := Option.some CrisisLevel.none, indicators := [],
        immediateActions := [], confidence := Option.none },
    followUp := { recommended := false, timeframe := "as needed", focus := [] },
    resources :=
      { selfHelp := ["breathing_exercises"], professional := ["online_counseling"],
        emergency := getEmergencyResources } }

/-- The `generateCulturallyAdaptedResponse` from `aiOrchestrator.ts` (the prompt
sent to the LLM is irrelevant to the result structure; `env.llmReply` stands
for the reply, with the JavaScript `response || fallbackMessage` defaulting). -/
def generateCulturallyAdaptedResponse (messageAnalysis : MessageAnalysis)
    (interventionStrategy : InterventionStrategy) (env : OrchestratorEnv) :
    TherapeuticResponse :=
  let culturalContext := messageAnalysis.culturalAnalysis
  { message :=
      if env.llmReply = "" then getFallbackMessage messageAnalysis
      else env.llmReply,
    interventionType := interventionStrategy.primary,
    culturalAdaptation :=
      { language := culturalContext.languagePreference,
        culturalReferences := culturalContext.culturalThemes,
        respectLevel :=
          if (7/10 : ℚ) < culturalContext.formalityLevel then "formal"
          else "casual" },
    emotionalSupport :=
      { empathyLevel := calculateEmpathyLevel messageAnalysis,
        validationStrategies := getValidationStrategies messageAnalysis,
        copingStrategies := getCopingStrategies messageAnalysis },
    riskAssessment :=
      { level := messageAnalysis.riskAnalysis.level,
        indicators := messageAnalysis.riskAnalysis.indicators,
        immediateActions := getImmediateActions messageAnalysis.riskAnalysis,
        confidence := Option.none },
    followUp :=
      { recommended := jsLevelNeqNone messageAnalysis.riskAnalysis.level,
        timeframe := getFollowUpTimeframe messageAnalysis.riskAnalysis.level,
        focus := messageAnalysis.therapeuticNeeds },
    resources :=
      { selfHelp := getSelfHelpResources messageAnalysis,
        professional := getProfessionalResources culturalContext,
        emergency := getEmergencyResources } }

/-- The `generateTherapeuticResponse` from `aiOrchestrator.ts`.  The function is
total: every internal failure is caught, either inside `analyzeUserMessage`
(riskFault) or by the outermost `catch` (lateFault ↦ fallback response). -/
def generateTherapeuticResponse (userMessage : String)
    (env : OrchestratorEnv) : TherapeuticResponse :=
  let messageAnalysis := analyzeUserMessage userMessage env
  let interventionStrategy :=
    determineInterventionStrategy messageAnalysis env.userContext
      env.riskAssessmentArg
  if env.lateFault then generateFallbackResponse
  else generateCulturallyAdaptedResponse messageAnalysis interventionStrategy env

/-! ## `SessionManager` state and operations (`src/services/geminiAI.ts`) -/

/-- The mutable fields of the `SessionManager` singleton (its
`realTimeAnalysis` map is only written by start/stop-monitoring and read by
nothing modelled here, so it is omitted). -/
structure ManagerState where
  activeSessions : List (String × UserSession)
  sessionHistory : List (String × List UserSession)
  userPlans : List (String × TherapeuticPlan)
deriving Repr

/-- The `initializeProgressMetrics`. -/
def initializeProgressMetrics : ProgressMetrics :=
  { emotionalRegulation := 1/2, selfAwareness := 1/2, copingSkillsUsage := 1/2,
    therapeuticAlliance := 1/2, goalProgress := [], riskReduction := 1/2,
    engagementLevel := 1/2, sessionSatisfaction := 1/2 }

/-- The `initializeCulturalContext` with no caller-supplied partial context. -/
def initializeCulturalContext : CulturalSessionContext :=
  { languagePreference := "mixed", culturalReferences := [],
    familyDynamics := [], socialContext := [], religiousConsiderations := [],
    generationalFactors := [] }

/-- The `initializeOutcomes`. -/
def initializeOutcomes : SessionOutcome :=
  { overallMood := "stable", goalsAddressed := [], skillsPracticed := [],
    insightsGained := [], nextSessionRecommendations := [],
    homeworkAssigned := [], riskStatus := "monitoring" }

/-- The default `TherapeuticPlan` installed by `getTherapeuticPlan` for an
unknown user. -/
def defaultTherapeuticPlan (userId : String) (now : Nat) : TherapeuticPlan :=
  { userId, createdDate := now, lastUpdated := now,
    primaryGoals := ["stress_management", "emotional_regulation"],
    secondaryGoals := ["family_communication", "academic_balance"],
    interventionStrategies := ["CBT", "mindfulness", "cultural_therapy"],
    culturalConsiderations := ["family_dynamics", "academic_pressure"],
    riskFactors := ["social_isolation", "perfectionism"],
    protectiveFactors := ["family_support", "academic_achievement"],
    progressMilestones := [],
    adaptiveStrategies := ["language_mixing", "cultural_references"] }

/-- The `startSession` (the session id, produced in the source by
`Date.now()` + randomness, is supplied by the caller here; the optional
`culturalContext`/`riskLevel` options, which no claim concerns, are omitted). -/
def startSession (st : ManagerState) (userId : String) (sessionType : String)
    (goals : Option (List String)) (sessionId : String) (now : Nat) :
    ManagerState × String :=
  let planAndPlans :=
    match mapGet st.userPlans userId with
    | Option.some p => (p, st.userPlans)
    | Option.none =>
        let p := defaultTherapeuticPlan userId now
        (p, mapSet st.userPlans userId p)
  let session : UserSession :=
    { sessionId, userId, startTime := now, endTime := Option.none,
      duration := 0, sessionType, interactions := [], emotionalJourney := [],
      therapeuticGoals := goals.getD planAndPlans.1.primaryGoals,
      progressMetrics := initializeProgressMetrics, aiAdaptations := [],
      culturalContext := initializeCulturalContext, riskAssessments := [],
      outcomes := initializeOutcomes }
  ({ activeSessions := mapSet st.activeSessions sessionId session,
     sessionHistory := st.sessionHistory, userPlans := planAndPlans.2 },
   sessionId)

/-- The dynamic (`any`-typed) per-turn `emotionalAnalysis` value of
`processInteraction`: `{}` for text/voice turns, the facial-analysis result
for video turns.  Every read of it in the source is optional-chained through
JavaScript truthiness, hence all fields are `Option`s. -/
structure EmotionAnalysis where
  primaryEmotion : Option String
  intensity : Option ℚ
  valence : Option ℚ
  arousal : Option ℚ
  confidence : Option ℚ
  contextualFactors : Option (List String)
deriving Repr

/-- The empty object `{}` assigned when no facial analysis runs. -/
def emptyEmotionAnalysis : EmotionAnalysis :=
  { primaryEmotion := Option.none, intensity := Option.none,
    valence := Option.none, arousal := Option.none, confidence := Option.none,
    contextualFactors := Option.none }

/-- The `EmotionDetectionResult.emotions` from `emotionDetection.ts`. -/
structure EmotionScores where
  joy : ℚ
  sorrow : ℚ
  anger : ℚ
  surprise : ℚ
  fear : ℚ
  disgust : ℚ
deriving Repr

/-- The `EmotionDetectionResult.facialFeatures` from `emotionDetection.ts`. -/
structure FacialFeatures where
  eyeContact : Bool
  facialTension : ℚ
  microExpressions : List String
  attentionLevel : ℚ
deriving Repr

/-- The `EmotionDetectionResult.wellnessIndicators` from `emotionDetection.ts`. -/
structure WellnessIndicators where
  stressLevel : ℚ
  fatigueLevel : ℚ
  engagementLevel : ℚ
  authenticity : ℚ
deriving Repr

/-- The `EmotionDetectionResult` interface of `emotionDetection.ts` — the
return type of `emotionDetection.analyzeImage`.  Note that it has *no*
`intensity`, `valence` or `arousal` fields (its cultural context and
recommendation fields, read by nothing modelled here, are omitted). -/
structure EmotionDetectionResult where
  faceDetected : Bool
  emotions : EmotionScores
  primaryEmotion : String
  confidence : ℚ
  facialFeatures : FacialFeatures
  wellnessIndicators : WellnessIndicators
deriving Repr

/-- The dynamic view of an `EmotionDetectionResult` under the field reads
performed by `processInteraction` and its helpers: `primaryEmotion` and
`confidence` are present, while `intensity`, `valence`, `arousal` and
`contextualFactors` do not exist on this type and read as `undefined`. -/
def emotionResultView (r : EmotionDetectionResult) : EmotionAnalysis :=
  { primaryEmotion := Option.some r.primaryEmotion,
    intensity := Option.none, valence := Option.none, arousal := Option.none,
    confidence := Option.some r.confidence, contextualFactors := Option.none }

/-- The `recordInteraction`: push, then cap the interaction log at the last 100. -/
def recordInteraction (session : UserSession)
    (interaction : SessionInteraction) : UserSession :=
  let interactions := session.interactions ++ [interaction]
  { session with
    interactions :=
      if 100 < interactions.length then lastN 100 interactions
      else interactions }

/-- The `dataPoint` object built by `updateEmotionalJourney`, with the
`||`-defaults of the source. -/
def mkEmotionalDataPoint (emotionalAnalysis : EmotionAnalysis)
    (source : EmotionSource) (now : Nat) : EmotionalDataPoint :=
  { timestamp := now,
    primaryEmotion := jsStrOr emotionalAnalysis.primaryEmotion "neutral",
    intensity := jsNumOr emotionalAnalysis.intensity (1/2),
    valence := jsNumOr emotionalAnalysis.valence 0,
    arousal := jsNumOr emotionalAnalysis.arousal (1/2),
    confidence := jsNumOr emotionalAnalysis.confidence (7/10),
    source,
    contextualFactors := emotionalAnalysis.contextualFactors.getD [] }

/-- The `updateEmotionalJourney`: push the data point, then cap the journey at
the last 50 entries. -/
def updateEmotionalJourney (session : UserSession)
    (emotionalAnalysis : EmotionAnalysis) (source : EmotionSource)
    (now : Nat) : UserSession :=
  let dataPoint := mkEmotionalDataPoint emotionalAnalysis source now
  let journey := session.emotionalJourney ++ [dataPoint]
  { session with
    emotionalJourney := if 50 < journey.length then lastN 50 journey else journey }

/-- The crisis keyword list local to `assessCurrentRisk`. -/
def sessionCrisisKeywords : List String :=
  ["suicide", "kill myself", "end it all", "no point", "give up",
   "आत्महत्या", "मरना चाहता", "जीने का मन नहीं"]

/-- The `SessionManager.assessCurrentRisk`.  The `session` parameter is accepted
(as in the source) but never read by the body; the timestamp is the wall
clock at the call. -/
def assessCurrentRisk (session : UserSession) (userMessage : String)
    (emotionalAnalysis : EmotionAnalysis) (now : Nat) : RiskAssessment :=
  let lowerMessage := jsToLower userMessage
  let indicators :=
    (if sessionCrisisKeywords.any (fun kw => jsContains lowerMessage kw) then
      ["suicidal_ideation"] else []) ++
    (if jsGt emotionalAnalysis.intensity (8/10) &&
        jsLt emotionalAnalysis.valence (-(1/2)) then
      ["severe_emotional_distress"] else [])
  let protectiveFactors :=
    if jsContains lowerMessage "family" || jsContains lowerMessage "friends" then
      ["social_support"]
    else []
  let level :=
    if indicators.contains "suicidal_ideation" then CrisisLevel.severe
    else if 1 < indicators.length then CrisisLevel.high
    else if 0 < indicators.length then CrisisLevel.moderate
    else if jsGt emotionalAnalysis.intensity (6/10) then CrisisLevel.low
    else CrisisLevel.none
  { timestamp := now, level, indicators, protectiveFactors,
    interventions := [],
    followUpRequired := level ≠ CrisisLevel.none,
    professionalReferral := level = CrisisLevel.severe,
    confidence := Option.none }

/-- The `determineAIAdaptations`: computes the adaptation list from the emotional
analysis, appends it to the session’s adaptation log, and returns both. -/
def determineAIAdaptations (session : UserSession)
    (emotionalAnalysis : EmotionAnalysis) (now : Nat) :
    UserSession × List AIAdaptation :=
  let adaptations :=
    (if emotionalAnalysis.primaryEmotion = Option.some "sad" &&
        jsGt emotionalAnalysis.intensity (6/10) then
      [{ timestamp := now, adaptationType := "tone",
         previousValue := "neutral", newValue := "gentle_supportive",
         reason := "High sadness intensity detected",
         effectiveness := 8/10 : AIAdaptation }]
    else []) ++
    (if jsGt emotionalAnalysis.intensity (7/10) then
      [{ timestamp := now, adaptationType := "complexity",
         previousValue := "normal", newValue := "simplified",
         reason := "High emotional intensity may affect comprehension",
         effectiveness := 7/10 : AIAdaptation }]
    else [])
  ({ session with aiAdaptations := session.aiAdaptations ++ adaptations },
   adaptations)

/-- The `updateProgressMetrics`: `engagementLevel` and `therapeuticAlliance` are
nudged with a `Math.min(1, ·)` clamp; `emotionalRegulation` is nudged without
a clamp, guarded by `interventionType === ’validation’ &&
emotionalAnalysis.valence > -0.3`. -/
def updateProgressMetrics (session : UserSession)
    (aiResponse : TherapeuticResponse) (emotionalAnalysis : EmotionAnalysis) :
    UserSession :=
  let pm := session.progressMetrics
  let pm := { pm with engagementLevel := min 1 (pm.engagementLevel + 1/10) }
  let pm :=
    if aiResponse.interventionType = "validation" &&
        jsGt emotionalAnalysis.valence (-(3/10)) then
      { pm with emotionalRegulation := pm.emotionalRegulation + 1/20 }
    else pm
  let pm :=
    { pm with therapeuticAlliance := min 1 (pm.therapeuticAlliance + 1/50) }
  { session with progressMetrics := pm }

/-- The `SessionManager` version of `calculateEmotionalTrend` (first-versus-
last valence). -/
def calculateEmotionalTrend (emotions : List EmotionalDataPoint) : String :=
  match emotions with
  | [] => "stable"
  | [_] => "stable"
  | e :: rest =>
      let last := (rest.getLast?).getD e
      if e.valence + 2/10 < last.valence then "improving"
      else if last.valence < e.valence - 2/10 then "declining"
      else "stable"

/-- The `calculateVariance`. -/
def calculateVariance (values : List ℚ) : ℚ :=
  let mean := values.foldl (fun s v => s + v) 0 / (values.length : ℚ)
  let squaredDiffs := values.map (fun v => (v - mean) ^ 2)
  squaredDiffs.foldl (fun s v => s + v) 0 / (values.length : ℚ)

/-- The `calculateEmotionalStability`. -/
def calculateEmotionalStability (emotions : List EmotionalDataPoint) : ℚ :=
  if emotions.length < 2 then 1/2
  else max 0 (1 - calculateVariance (emotions.map (fun e => e.intensity)))

/-- The object returned by `generateSessionInsights`. -/
structure SessionInsights where
  emotionalCurrent : String
  emotionalTrend : String
  emotionalStability : ℚ
  engagement : ℚ
  riskLevel : CrisisLevel
  therapeuticProgress : ℚ
deriving Repr

/-- The `generateSessionInsights`. -/
def generateSessionInsights (session : UserSession) : SessionInsights :=
  let recentEmotions := lastN 5 session.emotionalJourney
  { emotionalCurrent :=
      ((recentEmotions.getLast?).map (fun e => e.primaryEmotion)).getD "neutral",
    emotionalTrend := calculateEmotionalTrend recentEmotions,
    emotionalStability := calculateEmotionalStability recentEmotions,
    engagement := session.progressMetrics.engagementLevel,
    riskLevel :=
      ((session.riskAssessments.getLast?).map (fun r => r.level)).getD
        CrisisLevel.none,
    therapeuticProgress := session.progressMetrics.therapeuticAlliance }

/-- The `interactionType` union of `processInteraction`. -/
inductive InteractionType
  | text
  | voice
  | video
deriving DecidableEq, Repr

/-- The `sourceType` computation of `processInteraction` line 519. -/
def sourceTypeOf (it : InteractionType) : EmotionSource :=
  match it with
  | InteractionType.video => EmotionSource.facial
  | InteractionType.voice => EmotionSource.voice
  | InteractionType.text => EmotionSource.text

/-- The triple returned by a successful `processInteraction` call. -/
structure TurnResult where
  aiResponse : TherapeuticResponse
  sessionInsights : SessionInsights
  adaptations : List AIAdaptation
deriving Repr

/-- Replace a session value under its id (the source mutates the `Map` entry
object in place). -/
def putSession (st : ManagerState) (sessionId : String)
    (session : UserSession) : ManagerState :=
  { st with activeSessions := mapSet st.activeSessions sessionId session }

/-- The `SessionManager.processInteraction`.  External effects are oracle
parameters: `facial` is the outcome of `emotionDetection.analyzeImage`
(consulted only on a video turn with truthy image data; a thrown error is
rethrown by the interaction `catch` and fails the whole turn), and `orc`
supplies the orchestrator’s LLM oracles and fault flags.  The returned state
reflects the in-place session mutations performed before any rethrow. -/
def processInteraction (st : ManagerState) (sessionId : String)
    (userMessage : String) (interactionType : InteractionType)
    (imageData : Option String) (facial : Except String EmotionDetectionResult)
    (orc : OrchestratorEnv) (now : Nat) :
    ManagerState × Except String TurnResult :=
  match mapGet st.activeSessions sessionId with
  | Option.none => (st, Except.error "Session not found")
  | Option.some session =>
    let session := recordInteraction session
      { timestamp := now, type := "user_message", content := userMessage,
        metadata :=
          { interactionType :=
              Option.some (match interactionType with
                | InteractionType.text => "text"
                | InteractionType.voice => "voice"
                | InteractionType.video => "video"),
            confidence := Option.none, interventionType := Option.none,
            effectiveness := Option.none } }
    let facialStep : Except String EmotionAnalysis :=
      if interactionType = InteractionType.video && jsTruthyStr imageData then
        match facial with
        | Except.error e => Except.error e
        | Except.ok r => Except.ok (emotionResultView r)
      else Except.ok emptyEmotionAnalysis
    match facialStep with
    | Except.error e => (putSession st sessionId session, Except.error e)
    | Except.ok emotionalAnalysis =>
      let session :=
        if jsTruthyStr emotionalAnalysis.primaryEmotion then
          updateEmotionalJourney session emotionalAnalysis
            (sourceTypeOf interactionType) now
        else session
      let riskAssessment := assessCurrentRisk session userMessage
        emotionalAnalysis now
      let session :=
        { session with
          riskAssessments := session.riskAssessments ++ [riskAssessment] }
      let stepAdapt := determineAIAdaptations session emotionalAnalysis now
      let session := stepAdapt.1
      let adaptations := stepAdapt.2
      let aiResponse := generateTherapeuticResponse userMessage orc
      let session := recordInteraction session
        { timestamp := now, type := "ai_response", content := aiResponse.message,
          metadata :=
            { interactionType := Option.none,
              confidence :=
                Option.some (jsNumOr aiResponse.riskAssessment.confidence (8/10)),
              interventionType := Option.some aiResponse.interventionType,
              effectiveness := Option.none } }
      let session := updateProgressMetrics session aiResponse emotionalAnalysis
      let sessionInsights := generateSessionInsights session
      (putSession st sessionId session,
       Except.ok { aiResponse, sessionInsights, adaptations })

/-- The parameter type of `handleCrisisIntervention.crisisLevel`:
the union `’moderate’ | ’high’ | ’severe’`. -/
inductive EscalationLevel
  | moderate
  | high
  | severe
deriving DecidableEq, Repr

/-- Embed the escalation union back into the five-valued level type. -/
def EscalationLevel.toCrisisLevel : EscalationLevel → CrisisLevel
  | EscalationLevel.moderate => CrisisLevel.moderate
  | EscalationLevel.high => CrisisLevel.high
  | EscalationLevel.severe => CrisisLevel.severe

/-- The `identifyProtectiveFactors` (over the session’s recorded user messages). -/
def identifyProtectiveFactors (session : UserSession) : List String :=
  let messages :=
    (session.interactions.filter (fun i => i.type = "user_message")).map
      (fun i => jsToLower i.content)
  let allText := String.intercalate " " messages
  (if jsContains allText "family" || jsContains allText "परिवार" then
    ["family_support"] else []) ++
  (if jsContains allText "friends" || jsContains allText "दोस्त" then
    ["social_connections"] else []) ++
  (if jsContains allText "future" || jsContains allText "भविष्य" then
    ["future_orientation"] else [])

/-- The `generateImmediateActions` (the `indicators` parameter is accepted but
never read, as in the source). -/
def generateImmediateActions (crisisLevel : CrisisLevel)
    (indicators : List String) : List String :=
  if crisisLevel = CrisisLevel.severe then
    ["Contact emergency services immediately",
     "Do not leave the person alone",
     "Remove any means of self-harm",
     "Contact family/trusted person"]
  else if crisisLevel = CrisisLevel.high then
    ["Schedule immediate professional consultation",
     "Activate support network",
     "Implement safety planning"]
  else if crisisLevel = CrisisLevel.moderate then
    ["Increase session frequency",
     "Practice grounding techniques",
     "Connect with support person"]
  else []

/-- One entry of the static professional-contact directory. -/
structure ProfessionalContact where
  name : String
  number : String
  language : String
  availability : String
deriving Repr

/-- The `getProfessionalContacts` (the cultural context is accepted but the
directory is static). -/
def getProfessionalContacts (culturalContext : CulturalSessionContext) :
    List ProfessionalContact :=
  [{ name := "National Suicide Prevention Helpline", number := "9152987821",
     language := "Hindi/English", availability := "24/7" },
   { name := "Vandrevala Foundation", number := "9999666555",
     language := "Multiple languages", availability := "24/7" },
   { name := "iCall Psychosocial Helpline", number := "9152987821",
     language := "Hindi/English", availability := "Mon-Sat 8AM-10PM" }]

/-- The `generateSafetyPlan`. -/
def generateSafetyPlan (session : UserSession) (crisisLevel : CrisisLevel) :
    List String :=
  ["Recognize warning signs: " ++
     String.intercalate ", "
       ((session.riskAssessments.map (fun r => r.indicators)).flatten),
   "Use coping strategies: deep breathing, grounding techniques",
   "Contact support person when feeling overwhelmed",
   "Contact mental health professional if symptoms worsen"] ++
  (if crisisLevel = CrisisLevel.severe || crisisLevel = CrisisLevel.high then
    ["Remove or secure potential means of harm"] else [])

/-- The `CrisisEvent.followUpSchedule`: `Date` offsets in milliseconds. -/
structure FollowUpSchedule where
  immediate : Option Nat
  shortTerm : Option Nat
  longTerm : Option Nat
deriving DecidableEq, Repr

/-- The `createFollowUpSchedule`: per-level offsets from the current time. -/
def createFollowUpSchedule (crisisLevel : CrisisLevel) (now : Nat) :
    FollowUpSchedule :=
  if crisisLevel = CrisisLevel.severe then
    { immediate := Option.some (now + 2 * 60 * 60 * 1000),
      shortTerm := Option.some (now + 24 * 60 * 60 * 1000),
      longTerm := Option.some (now + 7 * 24 * 60 * 60 * 1000) }
  else if crisisLevel = CrisisLevel.high then
    { immediate := Option.some (now + 24 * 60 * 60 * 1000),
      shortTerm := Option.some (now + 3 * 24 * 60 * 60 * 1000),
      longTerm := Option.some (now + 14 * 24 * 60 * 60 * 1000) }
  else if crisisLevel = CrisisLevel.moderate then
    { immediate := Option.none,
      shortTerm := Option.some (now + 2 * 24 * 60 * 60 * 1000),
      longTerm := Option.some (now + 7 * 24 * 60 * 60 * 1000) }
  else
    { immediate := Option.none, shortTerm := Option.none,
      longTerm := Option.none }

/-- The crisis-intervention record returned by `handleCrisisIntervention` —
the `CrisisEvent` of the specification, with its four characteristic fields. -/
structure CrisisInterventionRecord where
  immediateActions : List String
  professionalContacts : List ProfessionalContact
  safetyPlan : List String
  followUpSchedule : FollowUpSchedule
deriving Repr

/-- The `SessionManager.handleCrisisIntervention`.  It records a crisis
`RiskAssessment` on the session (pushed with empty `interventions`, then the
pushed object’s `interventions` is set to `immediateActions ++ safetyPlan`,
line 646) and returns the crisis-intervention record. -/
def handleCrisisIntervention (st : ManagerState) (sessionId : String)
    (crisisLevel : EscalationLevel) (indicators : List String) (now : Nat) :
    ManagerState × Except String CrisisInterventionRecord :=
  match mapGet st.activeSessions sessionId with
  | Option.none => (st, Except.error "Session not found")
  | Option.some session =>
    let lvl := crisisLevel.toCrisisLevel
    let crisisAssessment : RiskAssessment :=
      { timestamp := now, level := lvl, indicators,
        protectiveFactors := identifyProtectiveFactors session,
        interventions := [], followUpRequired := true,
        professionalReferral := lvl = CrisisLevel.severe,
        confidence := Option.none }
    let sessionPushed :=
      { session with
        riskAssessments := session.riskAssessments ++ [crisisAssessment] }
    let immediateActions := generateImmediateActions lvl indicators
    let professionalContacts := getProfessionalContacts session.culturalContext
    let safetyPlan := generateSafetyPlan sessionPushed lvl
    let finalSession :=
      { session with
        riskAssessments :=
          session.riskAssessments ++
            [{ crisisAssessment with
               interventions := immediateActions ++ safetyPlan }] }
    (putSession st sessionId finalSession,
     Except.ok
       { immediateActions, professionalContacts, safetyPlan,
         followUpSchedule := createFollowUpSchedule lvl now })

/-- The `SessionManager.deleteUserData`: evict the user’s active sessions and
delete their session history and therapeutic plan. -/
def deleteUserData (st : ManagerState) (userId : String) : ManagerState :=
  { activeSessions := st.activeSessions.filter (fun p => p.2.userId ≠ userId),
    sessionHistory := mapDelete st.sessionHistory userId,
    userPlans := mapDelete st.userPlans userId }

/-- All risk assessments recorded anywhere in the manager state (inside
active sessions or archived session history); crisis interventions leave
their only persistent trace here. -/
def stateAssessments (st : ManagerState) : List RiskAssessment :=
  ((st.activeSessions.map (fun p => p.2.riskAssessments)).flatten) ++
    ((st.sessionHistory.map
      (fun p => (p.2.map (fun s => s.riskAssessments)).flatten)).flatten)

/-! ## Library lemmas about the map and capping helpers -/

theorem find?_mapSetFn {α : Type} (t : List (String × α)) (k : String)
    (v : α) :
    (t.map (fun p => if p.1 = k then (k, v) else p)).find?
        (fun p => p.1 = k) =
      if (t.find? (fun p => p.1 = k)).isSome then Option.some (k, v)
      else Option.none := by
  induction t with
  | nil => simp
  | cons p t ih =>
      by_cases hp : p.1 = k
      · rw [List.map_cons, if_pos hp]
        rw [List.find?_cons_of_pos _ (by simp),
          List.find?_cons_of_pos _ (by simp [hp])]
        simp
      · rw [List.map_cons, if_neg hp]
        rw [List.find?_cons_of_neg _ (by simp [hp]),
          List.find?_cons_of_neg _ (by simp [hp])]
        exact ih

theorem mapGet_mapSet_self {α : Type} (m : List (String × α)) (k : String)
    (v : α) : mapGet (mapSet m k v) k = Option.some v := by
  unfold mapSet mapGet
  by_cases hf : (m.find? (fun p => p.1 = k)).isSome
  · rw [if_pos hf, find?_mapSetFn, if_pos hf]
    rfl
  · rw [if_neg hf, List.find?_append]
    have h0 : m.find? (fun p => p.1 = k) = Option.none :=
      Option.not_isSome_iff_eq_none.mp hf
    simp [h0, List.find?_cons]

theorem mem_mapSet {α : Type} {m : List (String × α)} {k : String} {v : α}
    {p : String × α} (h : p ∈ mapSet m k v) : p ∈ m ∨ p = (k, v) := by
  unfold mapSet at h
  by_cases hf : (m.find? (fun q => q.1 = k)).isSome
  · rw [if_pos hf] at h
    obtain ⟨q, hq, hqe⟩ := List.mem_map.mp h
    by_cases hk : q.1 = k
    · right
      simpa [hk] using hqe.symm
    · left
      rw [if_neg hk] at hqe
      exact hqe ▸ hq
  · rw [if_neg hf] at h
    rcases List.mem_append.mp h with h1 | h1
    · exact Or.inl h1
    · right
      simpa using h1

theorem mapGet_mapDelete {α : Type} (m : List (String × α)) (k k' : String) :
    mapGet (mapDelete m k) k' =
      if k' = k then Option.none else mapGet m k' := by
  induction m with
  | nil => by_cases hk : k' = k <;> simp [mapDelete, mapGet, hk]
  | cons p t ih =>
      by_cases hp : p.1 = k
      · have hfilter : mapDelete (p :: t) k = mapDelete t k := by
          simp [mapDelete, List.filter_cons, hp]
        rw [hfilter, ih]
        by_cases hk : k' = k
        · simp [hk]
        · have hph : ¬ (p.1 = k') := fun h => hk (by rw [← h, hp])
          simp [mapGet, List.find?_cons, hph, hk]
      · have hfilter : mapDelete (p :: t) k = p :: mapDelete t k := by
          simp [mapDelete, List.filter_cons, hp]
        rw [hfilter]
        by_cases hph : p.1 = k'
        · have hk : ¬ (k' = k) := fun h => hp (hph.trans h)
          simp [mapGet, List.find?_cons, hph, hk]
        · have hrec := ih
          simp only [mapGet, List.find?_cons, hph] at hrec ⊢
          simpa [hph] using hrec

theorem lastN_length_le {α : Type} (n : Nat) (l : List α) :
    (lastN n l).length ≤ n := by
  simp [lastN]

theorem lastN_of_length_le {α : Type} {n : Nat} {l : List α}
    (h : l.length ≤ n) : lastN n l = l := by
  unfold lastN
  rw [List.take_of_length_le (by simpa using h), List.reverse_reverse]

theorem lastN_append_left {α : Type} (n : Nat) (xs ys : List α) :
    lastN n (lastN n xs ++ ys) = lastN n (xs ++ ys) := by
  unfold lastN
  rw [List.reverse_append, List.reverse_reverse, List.reverse_append]
  rw [List.take_append_eq_append_take, List.take_append_eq_append_take]
  rw [List.take_take]
  rw [Nat.min_eq_left (Nat.sub_le n ys.reverse.length)]

/-! ## Concrete fixtures used by witnesses and counterexamples -/

/-- The defaults substituted by `analyzeTextContent`’s `catch`. -/
def textAnalysisDefaults : TextAnalysis :=
  { themes := [], emotions := [], cognitivePatterns := [],
    behavioralIndicators := [], strengths := [] }

/-- A freshly started chat session, exactly as `startSession` builds it. -/
def sampleSession : UserSession :=
  { sessionId := "s1", userId := "user1", startTime := 0,
    endTime := Option.none, duration := 0, sessionType := "chat",
    interactions := [], emotionalJourney := [],
    therapeuticGoals := ["stress_management", "emotional_regulation"],
    progressMetrics := initializeProgressMetrics, aiAdaptations := [],
    culturalContext := initializeCulturalContext, riskAssessments := [],
    outcomes := initializeOutcomes }

/-- A manager state holding the single session `s1`. -/
def sampleState : ManagerState :=
  { activeSessions := [("s1", sampleSession)], sessionHistory := [],
    userPlans := [] }

/-- A fault-free orchestrator environment with a fresh default user profile. -/
def sampleOrcEnv : OrchestratorEnv :=
  { userContext := defaultUserContext "user1",
    textAnalysis := textAnalysisDefaults, llmReply := "ok",
    riskAssessmentArg := Option.none, riskFault := false, lateFault := false }

/-- A session of a second user, used for frame-condition witnesses. -/
def otherSession : UserSession :=
  { sampleSession with sessionId := "s2", userId := "user2" }

/-- A state holding data of two users. -/
def twoUserState : ManagerState :=
  { activeSessions := [("s1", sampleSession), ("s2", otherSession)],
    sessionHistory := [("user1", [sampleSession]), ("user2", [otherSession])],
    userPlans := [("user1", defaultTherapeuticPlan "user1" 0),
                  ("user2", defaultTherapeuticPlan "user2" 0)] }

/-- The state after a severe crisis intervention on `s1`. -/
def crisisState : ManagerState :=
  (handleCrisisIntervention sampleState "s1" EscalationLevel.severe
    ["suicidal_ideation"] 0).1

/-! ## Emotional-journey lemmas (claim C9) -/

theorem updateEmotionalJourney_journey (session : UserSession)
    (ea : EmotionAnalysis) (src : EmotionSource) (now : Nat) :
    (updateEmotionalJourney session ea src now).emotionalJourney =
      lastN 50 (session.emotionalJourney ++ [mkEmotionalDataPoint ea src now]) := by
  unfold updateEmotionalJourney
  dsimp only
  by_cases h :
      50 < (session.emotionalJourney ++ [mkEmotionalDataPoint ea src now]).length
  · rw [if_pos h]
  · rw [if_neg h, lastN_of_length_le (Nat.le_of_not_lt h)]

/-- Appending a whole list of per-turn emotion readings through
`updateEmotionalJourney`. -/
def appendJourney (session : UserSession)
    (inputs : List (EmotionAnalysis × EmotionSource × Nat)) : UserSession :=
  inputs.foldl (fun s p => updateEmotionalJourney s p.1 p.2.1 p.2.2) session

theorem appendJourney_journey (session : UserSession)
    (inputs : List (EmotionAnalysis × EmotionSource × Nat))
    (h : session.emotionalJourney.length ≤ 50) :
    (appendJourney session inputs).emotionalJourney =
      lastN 50 (session.emotionalJourney ++
        inputs.map (fun p => mkEmotionalDataPoint p.1 p.2.1 p.2.2)) := by
  induction inputs generalizing session with
  | nil => simp [appendJourney, lastN_of_length_le h]
  | cons p rest ih =>
      have hstep := updateEmotionalJourney_journey session p.1 p.2.1 p.2.2
      have hlen :
          (updateEmotionalJourney session p.1 p.2.1 p.2.2).emotionalJourney.length
            ≤ 50 := by
        rw [hstep]; exact lastN_length_le 50 _
      have htail := ih (updateEmotionalJourney session p.1 p.2.1 p.2.2) hlen
      unfold appendJourney at htail ⊢
      rw [List.foldl_cons, htail, hstep, lastN_append_left]
      simp [List.append_assoc]

/-! ## The claims -/

/-- C4: for every input text, `assessCrisisLevel` computes a score of 10 per
matched direct crisis phrase plus 5 per matched high-risk indicator term,
plus 8 if a plan token co-occurs with a harm token, plus 3 if an immediacy
token is present, and maps that score to a level by the table
score≥15→severe, ≥10→high, ≥5→moderate, ≥2→low, else none. -/
theorem crisis_score_table_correct (text : String) :
    (assessCrisisLevel text).level = specLevelTable (specScore text) :=
  assessCrisisLevel_level text

/-- C1 counterexample: the input `"suicide"` contains a direct
suicidal-ideation phrase of the crisis lexicon, yet `assessCrisisLevel`
assigns it level `high`, not `severe` (one direct phrase scores 10 < 15). -/
theorem crisis_phrase_not_severe_counterexample :
    "suicide" ∈ CRISIS_KEYWORDS ∧
    jsContains (jsToLower "suicide") (jsToLower "suicide") = true ∧
    (assessCrisisLevel "suicide").level = CrisisLevel.high ∧
    CrisisLevel.high ≠ CrisisLevel.severe :=
  ⟨by decide, rfl, rfl, by decide⟩

/-- C1 amended: a direct suicidal-ideation phrase forces level `severe` in
`assessCurrentRisk` and `assessRiskFactors` (regardless of co-occurring
protective-factor terms, which never affect the level); in
`assessCrisisLevel` it forces a score of at least 10 and hence level `high`
or `severe` (severe only from score 15 up). -/
theorem crisis_phrase_level_floor (session : UserSession)
    (msg₁ msg₂ text : String) (ea : EmotionAnalysis) (uc : UserContext)
    (now : Nat)
    (h1 : ∃ kw ∈ sessionCrisisKeywords, jsContains (jsToLower msg₁) kw = true)
    (h2 : ∃ kw ∈ suicidalIdeationKeywords,
      jsContains (jsToLower msg₂) kw = true)
    (h3 : ∃ kw ∈ CRISIS_KEYWORDS,
      jsContains (jsToLower text) (jsToLower kw) = true) :
    (assessCurrentRisk session msg₁ ea now).level = CrisisLevel.severe ∧
    (assessRiskFactors msg₂ uc).level = Option.some CrisisLevel.severe ∧
    ((assessCrisisLevel text).level = CrisisLevel.severe ∨
      (assessCrisisLevel text).level = CrisisLevel.high) := by
  refine ⟨?_, ?_, ?_⟩
  · obtain ⟨kw, hmem, hc⟩ := h1
    have hany : sessionCrisisKeywords.any
        (fun kw => jsContains (jsToLower msg₁) kw) = true :=
      List.any_eq_true.mpr ⟨kw, hmem, hc⟩
    simp [assessCurrentRisk, hany]
  · obtain ⟨kw, hmem, hc⟩ := h2
    have hany : suicidalIdeationKeywords.any
        (fun kw => jsContains (jsToLower msg₂) kw) = true :=
      List.any_eq_true.mpr ⟨kw, hmem, hc⟩
    simp [assessRiskFactors, riskIndicatorLists, List.filter_cons, hany]
  · have h10 := specScore_ge_of_crisis_match text h3
    rw [assessCrisisLevel_level]
    unfold specLevelTable
    by_cases h15 : 15 ≤ specScore text
    · left
      rw [if_pos h15]
    · right
      rw [if_neg h15, if_pos h10]

/-- C1 witness: the amended theorem applied to the concrete input
`"suicide"` for all three functions. -/
theorem crisis_phrase_level_floor_witness :
    (assessCurrentRisk sampleSession "suicide" emptyEmotionAnalysis 0).level =
      CrisisLevel.severe ∧
    (assessRiskFactors "suicide" (defaultUserContext "user1")).level =
      Option.some CrisisLevel.severe ∧
    ((assessCrisisLevel "suicide").level = CrisisLevel.severe ∨
      (assessCrisisLevel "suicide").level = CrisisLevel.high) :=
  crisis_phrase_level_floor sampleSession "suicide" "suicide" "suicide"
    emptyEmotionAnalysis (defaultUserContext "user1") 0
    ⟨"suicide", by decide, rfl⟩
    ⟨"suicide", by decide, rfl⟩
    ⟨"suicide", by decide, rfl⟩

/-- C8 counterexample: two `assessCurrentRisk` calls with identical text,
emotion signals and session history, made at clock readings 0 and 1, return
`RiskAssessment` values that differ (in the `timestamp` field), so the
results are not bit-identical. -/
theorem risk_not_bit_identical_counterexample :
    (assessCurrentRisk sampleSession "hello" emptyEmotionAnalysis 0).timestamp
        = 0 ∧
    (assessCurrentRisk sampleSession "hello" emptyEmotionAnalysis 1).timestamp
        = 1 ∧
    assessCurrentRisk sampleSession "hello" emptyEmotionAnalysis 0 ≠
      assessCurrentRisk sampleSession "hello" emptyEmotionAnalysis 1 :=
  ⟨rfl, rfl,
    fun h =>
      absurd (congrArg RiskAssessment.timestamp h) (by decide)⟩

/-- C8 amended: `assessCurrentRisk` is deterministic given the clock — every
field except `timestamp` depends only on the message text and emotion
signals (the session, i.e. the history, is not even read), and `timestamp`
equals the clock reading of the call. -/
theorem risk_identical_except_timestamp (s₁ s₂ : UserSession) (msg : String)
    (ea : EmotionAnalysis) (t₁ t₂ : Nat) :
    ({ assessCurrentRisk s₁ msg ea t₁ with timestamp := 0 } =
      { assessCurrentRisk s₂ msg ea t₂ with timestamp := 0 }) ∧
    (assessCurrentRisk s₁ msg ea t₁).timestamp = t₁ :=
  ⟨rfl, rfl⟩

/-- C9: for any session whose journey respects the cap (as every freshly
started session does), appending any number of emotion data points through
`updateEmotionalJourney` keeps the journey at no more than 50 entries, and
the kept entries are exactly the 50 most recent ones, in order (the oldest
are evicted first). -/
theorem journey_fifo_capped (session : UserSession)
    (inputs : List (EmotionAnalysis × EmotionSource × Nat))
    (h : session.emotionalJourney.length ≤ 50) :
    (appendJourney session inputs).emotionalJourney.length ≤ 50 ∧
    (appendJourney session inputs).emotionalJourney =
      lastN 50 (session.emotionalJourney ++
        inputs.map (fun p => mkEmotionalDataPoint p.1 p.2.1 p.2.2)) :=
  ⟨by rw [appendJourney_journey session inputs h]; exact lastN_length_le 50 _,
   appendJourney_journey session inputs h⟩

/-- C9 witness: the cap theorem applied to a fresh session and one appended
data point. -/
theorem journey_fifo_capped_witness :
    sampleSession.emotionalJourney.length ≤ 50 ∧
    ((appendJourney sampleSession
        [(emptyEmotionAnalysis, EmotionSource.text, 5)]).emotionalJourney.length
          ≤ 50 ∧
      (appendJourney sampleSession
        [(emptyEmotionAnalysis, EmotionSource.text, 5)]).emotionalJourney =
        lastN 50 (sampleSession.emotionalJourney ++
          [(emptyEmotionAnalysis, EmotionSource.text,
            5)].map (fun p => mkEmotionalDataPoint p.1 p.2.1 p.2.2))) :=
  ⟨by decide,
   journey_fifo_capped sampleSession
     [(emptyEmotionAnalysis, EmotionSource.text, 5)] (by decide)⟩

/-- C7: on the message `"i hurt myself and i am alone"` (two risk-indicator
categories, no suicidal-ideation phrase) the analysed risk level is `high`,
and the planner’s primary tag is `"risk_management"` — a value outside the
union type declared for `TherapeuticResponse.interventionType`, into which
it nevertheless flows. -/
theorem strategy_outside_vocabulary :
    (assessRiskFactors "i hurt myself and i am alone"
        sampleOrcEnv.userContext).level = Option.some CrisisLevel.high ∧
    (determineInterventionStrategy
        (analyzeUserMessage "i hurt myself and i am alone" sampleOrcEnv)
        sampleOrcEnv.userContext Option.none).primary = "risk_management" ∧
    (generateTherapeuticResponse "i hurt myself and i am alone"
        sampleOrcEnv).interventionType = "risk_management" ∧
    interventionTypeVocabulary.contains "risk_management" = false :=
  ⟨rfl, rfl, rfl, by decide⟩

/-- C3 counterexample: with a fault injected into the risk computation
(`assessRiskFactors` throwing), the turn does *not* fail: it returns a
normal result whose risk level is simply absent; and a fault reaching the
orchestrator’s outer catch yields the canned fallback response whose risk
level is the literal `’none’`.  Either way the turn succeeds quietly. -/
theorem risk_fault_not_loud_counterexample :
    ((processInteraction sampleState "s1" "hello" InteractionType.text
        Option.none (Except.error "unused")
        { sampleOrcEnv with riskFault := true } 0).2.toOption.map
      (fun r => r.aiResponse.riskAssessment.level)) =
      Option.some Option.none ∧
    (generateTherapeuticResponse "hello"
        { sampleOrcEnv with lateFault := true }).riskAssessment.level =
      Option.some CrisisLevel.none :=
  ⟨rfl, rfl⟩

/-- C3 amended: an internal fault during risk computation never fails the
turn.  A fault inside `assessRiskFactors` is caught by `analyzeUserMessage`:
the turn still returns `Except.ok`, with the response’s risk level absent
(`undefined`) and follow-up nevertheless marked recommended.  A fault
reaching the orchestrator’s outermost catch replaces the response by
`generateFallbackResponse`, whose risk level is the literal `’none’`. -/
theorem risk_fault_swallowed (st : ManagerState) (sid msg : String)
    (it : InteractionType) (img : Option String)
    (facial : Except String EmotionDetectionResult) (orc : OrchestratorEnv)
    (now : Nat) (s : UserSession)
    (hs : mapGet st.activeSessions sid = Option.some s)
    (hnf : (it = InteractionType.video && jsTruthyStr img) = false)
    (hrf : orc.riskFault = true) (hlf : orc.lateFault = false) :
    (∃ res, (processInteraction st sid msg it img facial orc now).2 =
        Except.ok res ∧
      res.aiResponse.riskAssessment.level = Option.none ∧
      res.aiResponse.followUp.recommended = true) ∧
    (∀ (msg' : String) (orc' : OrchestratorEnv), orc'.lateFault = true →
      generateTherapeuticResponse msg' orc' = generateFallbackResponse ∧
        generateFallbackResponse.riskAssessment.level =
          Option.some CrisisLevel.none) := by
  constructor
  · simp only [processInteraction, hs]
    rw [hnf]
    simp only [Bool.false_eq_true, if_false, reduceCtorEq]
    refine ⟨_, rfl, ?_, ?_⟩
    · simp [generateTherapeuticResponse, analyzeUserMessage, hrf, hlf,
        generateCulturallyAdaptedResponse, emptyRiskAnalysis]
    · simp [generateTherapeuticResponse, analyzeUserMessage, hrf, hlf,
        generateCulturallyAdaptedResponse, emptyRiskAnalysis, jsLevelNeqNone]
  · intro msg' orc' hl
    constructor
    · simp [generateTherapeuticResponse, hl]
    · rfl

/-- C3 witness: the amended theorem applied to a concrete risk-faulting turn
on the sample state. -/
theorem risk_fault_swallowed_witness :
    mapGet sampleState.activeSessions "s1" = Option.some sampleSession ∧
    ((InteractionType.text = InteractionType.video &&
        jsTruthyStr Option.none) = false) ∧
    ((∃ res, (processInteraction sampleState "s1" "hello"
          InteractionType.text Option.none (Except.error "unused")
          { sampleOrcEnv with riskFault := true } 0).2 = Except.ok res ∧
        res.aiResponse.riskAssessment.level = Option.none ∧
        res.aiResponse.followUp.recommended = true) ∧
      (∀ (msg' : String) (orc' : OrchestratorEnv), orc'.lateFault = true →
        generateTherapeuticResponse msg' orc' = generateFallbackResponse ∧
          generateFallbackResponse.riskAssessment.level =
            Option.some CrisisLevel.none)) :=
  ⟨rfl, rfl,
   risk_fault_swallowed sampleState "s1" "hello" InteractionType.text
     Option.none (Except.error "unused")
     { sampleOrcEnv with riskFault := true } 0 sampleSession rfl rfl rfl rfl⟩

/-- Shape of a turn that does not consult the facial extractor: it succeeds,
appends exactly one risk assessment — the text-only `assessCurrentRisk`
result, with empty `interventions` — and leaves the emotional journey
untouched (no emotion signal at all is appended). -/
theorem processInteraction_text_shape (st : ManagerState) (sid msg : String)
    (it : InteractionType) (img : Option String)
    (facial : Except String EmotionDetectionResult) (orc : OrchestratorEnv)
    (now : Nat) (s : UserSession)
    (hs : mapGet st.activeSessions sid = Option.some s)
    (hnf : (it = InteractionType.video && jsTruthyStr img) = false) :
    (processInteraction st sid msg it img facial orc now).2.isOk = true ∧
    ((mapGet (processInteraction st sid msg it img facial orc now).1.activeSessions
        sid).map
      (fun s' => (s'.riskAssessments.map (fun a => (a.level, a.interventions)),
        s'.emotionalJourney))) =
      Option.some
        (s.riskAssessments.map (fun a => (a.level, a.interventions)) ++
          [((assessCurrentRisk s msg emptyEmotionAnalysis now).level,
            ([] : List String))],
         s.emotionalJourney) := by
  simp only [processInteraction, hs]
  rw [hnf]
  refine ⟨rfl, ?_⟩
  change Option.map _ (mapGet (mapSet st.activeSessions sid _) sid) = _
  rw [mapGet_mapSet_self]
  simp [updateProgressMetrics, recordInteraction, determineAIAdaptations,
    jsTruthyStr, emptyEmotionAnalysis, assessCurrentRisk, updateEmotionalJourney]

/-- C6 counterexample: on a video turn whose facial extractor throws, the
turn fails with that error instead of substituting a neutral
confidence-0 signal — no risk assessment is produced at all. -/
theorem facial_failure_counterexample :
    (processInteraction sampleState "s1" "hello" InteractionType.video
        (Option.some "frame.jpg") (Except.error "camera permission revoked")
        sampleOrcEnv 0).2 =
      Except.error "camera permission revoked" ∧
    ((mapGet (processInteraction sampleState "s1" "hello"
        InteractionType.video (Option.some "frame.jpg")
        (Except.error "camera permission revoked") sampleOrcEnv
        0).1.activeSessions "s1").map
      (fun s => (s.riskAssessments.length, s.emotionalJourney.length))) =
      Option.some (0, 0) :=
  ⟨rfl, rfl⟩

/-- C6 amended: a facial-extractor failure on a video turn propagates and
fails the whole turn (no neutral default is recorded, no risk assessment is
produced); only turns that never consult the facial extractor proceed, and
those compute the risk assessment from the text alone with the empty
emotional analysis, appending no emotion signal whatsoever. -/
theorem facial_failure_fails_turn (st : ManagerState) (sid msg : String)
    (orc : OrchestratorEnv) (now : Nat) (s : UserSession)
    (hs : mapGet st.activeSessions sid = Option.some s) :
    (∀ (img : Option String) (e : String), jsTruthyStr img = true →
      (processInteraction st sid msg InteractionType.video img
        (Except.error e) orc now).2 = Except.error e) ∧
    (∀ (it : InteractionType) (img : Option String)
        (facial : Except String EmotionDetectionResult),
      (it = InteractionType.video && jsTruthyStr img) = false →
      ((processInteraction st sid msg it img facial orc now).2.isOk = true ∧
        ((mapGet (processInteraction st sid msg it img facial orc
            now).1.activeSessions sid).map
          (fun s' => (s'.riskAssessments.map (fun a => (a.level, a.interventions)),
            s'.emotionalJourney))) =
          Option.some
            (s.riskAssessments.map (fun a => (a.level, a.interventions)) ++
              [((assessCurrentRisk s msg emptyEmotionAnalysis now).level,
                ([] : List String))],
             s.emotionalJourney))) := by
  constructor
  · intro img e himg
    simp [processInteraction, hs, himg]
  · intro it img facial hnf
    exact processInteraction_text_shape st sid msg it img facial orc now s hs hnf

/-- C6 witness: the amended theorem applied to the sample state. -/
theorem facial_failure_fails_turn_witness :
    mapGet sampleState.activeSessions "s1" = Option.some sampleSession ∧
    ((∀ (img : Option String) (e : String), jsTruthyStr img = true →
      (processInteraction sampleState "s1" "hello" InteractionType.video img
        (Except.error e) sampleOrcEnv 7).2 = Except.error e) ∧
    (∀ (it : InteractionType) (img : Option String)
        (facial : Except String EmotionDetectionResult),
      (it = InteractionType.video && jsTruthyStr img) = false →
      ((processInteraction sampleState "s1" "hello" it img facial sampleOrcEnv
          7).2.isOk = true ∧
        ((mapGet (processInteraction sampleState "s1" "hello" it img facial
            sampleOrcEnv 7).1.activeSessions "s1").map
          (fun s' => (s'.riskAssessments.map (fun a => (a.level, a.interventions)),
            s'.emotionalJourney))) =
          Option.some
            (sampleSession.riskAssessments.map
                (fun a => (a.level, a.interventions)) ++
              [((assessCurrentRisk sampleSession "hello" emptyEmotionAnalysis
                  7).level, ([] : List String))],
             sampleSession.emotionalJourney)))) :=
  ⟨rfl,
   facial_failure_fails_turn sampleState "s1" "hello" sampleOrcEnv 7
     sampleSession rfl⟩

/-- C2 counterexample: a processed turn whose risk assessment is `severe`
creates no crisis-intervention record: the turn returns normally and the
session’s only new artefact is a risk assessment with empty
`interventions` — `handleCrisisIntervention` (the sole producer of records
with `immediateActions`/`professionalContacts`/`safetyPlan`/
`followUpSchedule`) is never invoked by `processInteraction`. -/
theorem severe_turn_no_crisis_record_counterexample :
    ((mapGet (processInteraction sampleState "s1" "suicide"
        InteractionType.text Option.none (Except.error "unused") sampleOrcEnv
        0).1.activeSessions "s1").map
      (fun s => s.riskAssessments.map (fun a => (a.level, a.interventions)))) =
      Option.some [(CrisisLevel.severe, ([] : List String))] ∧
    (processInteraction sampleState "s1" "suicide" InteractionType.text
        Option.none (Except.error "unused") sampleOrcEnv 0).2.isOk = true :=
  ⟨rfl, rfl⟩

/-- C2 amended: `processInteraction` never creates a crisis-intervention
record at any risk level (every assessment it appends has empty
`interventions` and its result carries no such record); a record — complete
with immediate actions, professional contacts, safety plan and follow-up
schedule — is created exactly when the caller separately invokes
`handleCrisisIntervention`, whose level parameter admits only `moderate`,
`high` and `severe`, and which also appends a crisis assessment with
`followUpRequired` and non-empty `interventions`. -/
theorem crisis_record_only_from_controller (st : ManagerState)
    (sid msg : String) (it : InteractionType) (img : Option String)
    (facial : Except String EmotionDetectionResult) (orc : OrchestratorEnv)
    (now tnow : Nat) (s : UserSession) (lvl : EscalationLevel)
    (ind : List String)
    (hs : mapGet st.activeSessions sid = Option.some s)
    (hnf : (it = InteractionType.video && jsTruthyStr img) = false) :
    ((mapGet (processInteraction st sid msg it img facial orc
        now).1.activeSessions sid).map
      (fun s' => s'.riskAssessments.map (fun a => a.interventions))) =
      Option.some (s.riskAssessments.map (fun a => a.interventions) ++
        [([] : List String)]) ∧
    (∃ ev, (handleCrisisIntervention st sid lvl ind tnow).2 = Except.ok ev ∧
      ev.immediateActions ≠ [] ∧ ev.safetyPlan ≠ [] ∧
      ((mapGet (handleCrisisIntervention st sid lvl ind
          tnow).1.activeSessions sid).map
        (fun s' => s'.riskAssessments.map
          (fun a => (a.level, a.followUpRequired, a.interventions.isEmpty)))) =
        Option.some (s.riskAssessments.map
            (fun a => (a.level, a.followUpRequired, a.interventions.isEmpty)) ++
          [(lvl.toCrisisLevel, true, false)])) ∧
    (lvl.toCrisisLevel = CrisisLevel.moderate ∨
      lvl.toCrisisLevel = CrisisLevel.high ∨
      lvl.toCrisisLevel = CrisisLevel.severe) := by
  refine ⟨?_, ?_, ?_⟩
  · have hshape :=
      (processInteraction_text_shape st sid msg it img facial orc now s hs hnf).2
    have := congrArg
      (Option.map (fun x : List (CrisisLevel × List String) × List EmotionalDataPoint =>
        x.1.map (fun pr => pr.2))) hshape
    simpa [Option.map_map, List.map_map, Function.comp] using this
  · simp only [handleCrisisIntervention, hs]
    refine ⟨_, rfl, ?_, ?_, ?_⟩
    · cases lvl <;>
        simp [generateImmediateActions, EscalationLevel.toCrisisLevel]
    · simp [generateSafetyPlan]
    · change Option.map _ (mapGet (mapSet st.activeSessions sid _) sid) = _
      rw [mapGet_mapSet_self]
      cases lvl <;>
        simp [EscalationLevel.toCrisisLevel, generateImmediateActions,
          generateSafetyPlan]
  · cases lvl <;> simp [EscalationLevel.toCrisisLevel]

/-- C2 witness: the amended theorem applied to a severe text turn and a
severe escalation on the sample state. -/
theorem crisis_record_only_from_controller_witness :
    mapGet sampleState.activeSessions "s1" = Option.some sampleSession ∧
    ((InteractionType.text = InteractionType.video &&
        jsTruthyStr Option.none) = false) ∧
    (((mapGet (processInteraction sampleState "s1" "suicide"
        InteractionType.text Option.none (Except.error "unused") sampleOrcEnv
        0).1.activeSessions "s1").map
      (fun s' => s'.riskAssessments.map (fun a => a.interventions))) =
      Option.some (sampleSession.riskAssessments.map (fun a => a.interventions) ++
        [([] : List String)]) ∧
    (∃ ev, (handleCrisisIntervention sampleState "s1" EscalationLevel.severe
        ["suicidal_ideation"] 0).2 = Except.ok ev ∧
      ev.immediateActions ≠ [] ∧ ev.safetyPlan ≠ [] ∧
      ((mapGet (handleCrisisIntervention sampleState "s1"
          EscalationLevel.severe ["suicidal_ideation"]
          0).1.activeSessions "s1").map
        (fun s' => s'.riskAssessments.map
          (fun a => (a.level, a.followUpRequired, a.interventions.isEmpty)))) =
        Option.some (sampleSession.riskAssessments.map
            (fun a => (a.level, a.followUpRequired, a.interventions.isEmpty)) ++
          [(EscalationLevel.severe.toCrisisLevel, true, false)])) ∧
    (EscalationLevel.severe.toCrisisLevel = CrisisLevel.moderate ∨
      EscalationLevel.severe.toCrisisLevel = CrisisLevel.high ∨
      EscalationLevel.severe.toCrisisLevel = CrisisLevel.severe)) :=
  ⟨rfl, rfl,
   crisis_record_only_from_controller sampleState "s1" "suicide"
     InteractionType.text Option.none (Except.error "unused") sampleOrcEnv 0 0
     sampleSession EscalationLevel.severe ["suicidal_ideation"] rfl rfl⟩

/-- C10 counterexample: after a severe crisis intervention on user `user1`’s
session, the manager state holds exactly one crisis assessment
(level `severe`, follow-up required); `deleteUserData "user1"` removes it —
there is no separate crisis-event store, so the crisis record is deleted
along with the user’s session rather than retained for audit. -/
theorem crisis_record_deleted_counterexample :
    ((stateAssessments crisisState).map
      (fun a => (a.level, a.followUpRequired))) =
      [(CrisisLevel.severe, true)] ∧
    stateAssessments (deleteUserData crisisState "user1") = [] :=
  ⟨rfl, rfl⟩

/-- C10 amended: `deleteUserData` removes the user’s active sessions,
session history and plans (crisis assessments recorded inside them
included), while data belonging to other users — and only that — is
retained unchanged. -/
theorem deleteUserData_scope (st : ManagerState) (uid k : String)
    (p : String × UserSession) (hp : p ∈ st.activeSessions)
    (hne : p.2.userId ≠ uid) (hk : k ≠ uid) :
    p ∈ (deleteUserData st uid).activeSessions ∧
    (∀ q ∈ (deleteUserData st uid).activeSessions, q.2.userId ≠ uid) ∧
    mapGet (deleteUserData st uid).sessionHistory uid = Option.none ∧
    mapGet (deleteUserData st uid).userPlans uid = Option.none ∧
    mapGet (deleteUserData st uid).sessionHistory k =
      mapGet st.sessionHistory k ∧
    mapGet (deleteUserData st uid).userPlans k = mapGet st.userPlans k := by
  refine ⟨?_, ?_, ?_, ?_, ?_, ?_⟩
  · exact List.mem_filter.mpr ⟨hp, by simpa using hne⟩
  · intro q hq
    have := (List.mem_filter.mp hq).2
    simpa using this
  · simp [deleteUserData, mapGet_mapDelete]
  · simp [deleteUserData, mapGet_mapDelete]
  · simp [deleteUserData, mapGet_mapDelete, hk]
  · simp [deleteUserData, mapGet_mapDelete, hk]

/-- C10 witness: the amended theorem applied to a two-user state, showing
user 2’s session, history and plan survive `deleteUserData "user1"`. -/
theorem deleteUserData_scope_witness :
    ("s2", otherSession) ∈ twoUserState.activeSessions ∧
    otherSession.userId ≠ "user1" ∧ "user2" ≠ "user1" ∧
    (("s2", otherSession) ∈ (deleteUserData twoUserState "user1").activeSessions ∧
    (∀ q ∈ (deleteUserData twoUserState "user1").activeSessions,
      q.2.userId ≠ "user1") ∧
    mapGet (deleteUserData twoUserState "user1").sessionHistory "user1" =
      Option.none ∧
    mapGet (deleteUserData twoUserState "user1").userPlans "user1" =
      Option.none ∧
    mapGet (deleteUserData twoUserState "user1").sessionHistory "user2" =
      mapGet twoUserState.sessionHistory "user2" ∧
    mapGet (deleteUserData twoUserState "user1").userPlans "user2" =
      mapGet twoUserState.userPlans "user2") :=
  ⟨List.Mem.tail _ (List.Mem.head _), by decide, by decide,
   deleteUserData_scope twoUserState "user1" "user2" ("s2", otherSession)
     (List.Mem.tail _ (List.Mem.head _)) (by decide) (by decide)⟩

/-- The `[0,1]` range claimed for the five progress scores. -/
def MetricsOK (pm : ProgressMetrics) : Prop :=
  (0 ≤ pm.emotionalRegulation ∧ pm.emotionalRegulation ≤ 1) ∧
  (0 ≤ pm.selfAwareness ∧ pm.selfAwareness ≤ 1) ∧
  (0 ≤ pm.copingSkillsUsage ∧ pm.copingSkillsUsage ≤ 1) ∧
  (0 ≤ pm.therapeuticAlliance ∧ pm.therapeuticAlliance ≤ 1) ∧
  (0 ≤ pm.engagementLevel ∧ pm.engagementLevel ≤ 1)

theorem mapGet_mem {α : Type} {m : List (String × α)} {k : String} {v : α}
    (h : mapGet m k = Option.some v) : ∃ p ∈ m, p.2 = v := by
  unfold mapGet at h
  cases hf : m.find? (fun p => p.1 = k) with
  | none => rw [hf] at h; simp at h
  | some p =>
      rw [hf] at h
      simp at h
      exact ⟨p, List.mem_of_find?_eq_some hf, h⟩

/-- The `updateProgressMetrics` preserves the range whenever the per-turn
emotional analysis carries no `valence` — which, inside
`processInteraction`, is always the case, because the facial
`EmotionDetectionResult` type has no such field and text/voice turns use the
empty analysis; the unclamped `emotionalRegulation += 0.05` line is
therefore unreachable through processed turns. -/
theorem updateProgressMetrics_ok (s : UserSession) (r : TherapeuticResponse)
    (ea : EmotionAnalysis) (hv : ea.valence = Option.none)
    (h : MetricsOK s.progressMetrics) :
    MetricsOK (updateProgressMetrics s r ea).progressMetrics := by
  obtain ⟨h1, h2, h3, ⟨h4a, h4b⟩, h5a, h5b⟩ := h
  have hgt : jsGt ea.valence (-(3/10)) = false := by rw [hv]; rfl
  unfold updateProgressMetrics
  simp only [hgt, Bool.and_false, Bool.false_eq_true, if_false]
  refine ⟨h1, h2, h3, ⟨?_, ?_⟩, ?_, ?_⟩ <;> dsimp only
  · exact le_min (by norm_num) (by linarith)
  · exact min_le_left 1 _
  · exact le_min (by norm_num) (by linarith)
  · exact min_le_left 1 _

/-- C5: the progress metrics start at 0.5 each, and every processed turn —
whatever the inputs, faults or facial results — keeps all five claimed
scores of every tracked session inside `[0,1]`; hence they remain in range
after arbitrarily many turns. -/
theorem metrics_stay_in_range :
    MetricsOK initializeProgressMetrics ∧
    ∀ (st : ManagerState) (sid msg : String) (it : InteractionType)
      (img : Option String) (facial : Except String EmotionDetectionResult)
      (orc : OrchestratorEnv) (now : Nat),
      (∀ p ∈ st.activeSessions, MetricsOK p.2.progressMetrics) →
      ∀ p' ∈ (processInteraction st sid msg it img facial orc
          now).1.activeSessions,
        MetricsOK p'.2.progressMetrics := by
  constructor
  · refine ⟨⟨?_, ?_⟩, ⟨?_, ?_⟩, ⟨?_, ?_⟩, ⟨?_, ?_⟩, ⟨?_, ?_⟩⟩ <;>
      norm_num [initializeProgressMetrics]
  · intro st sid msg it img facial orc now hall p' hp'
    cases hfind : mapGet st.activeSessions sid with
    | none =>
        simp only [processInteraction, hfind] at hp'
        exact hall p' hp'
    | some s =>
        have hsOK : MetricsOK s.progressMetrics := by
          obtain ⟨q, hq, hq2⟩ := mapGet_mem hfind
          rw [← hq2]
          exact hall q hq
        simp only [processInteraction, hfind] at hp'
        split at hp'
        · -- facial extractor threw: only the interaction log changed
          simp only [putSession] at hp'
          rcases mem_mapSet hp' with hin | heqp
          · exact hall p' hin
          · rw [heqp]
            exact hsOK
        · -- normal turn
          rename_i ea heq
          have hval : ea.valence = Option.none := by
            by_cases hcond :
                (it = InteractionType.video && jsTruthyStr img) = true
            · rw [if_pos hcond] at heq
              cases facial with
              | error e => simp at heq
              | ok r =>
                  simp only [Except.ok.injEq] at heq
                  rw [← heq]
                  rfl
            · rw [if_neg hcond] at heq
              simp only [Except.ok.injEq] at heq
              rw [← heq]
              rfl
          simp only [putSession] at hp'
          rcases mem_mapSet hp' with hin | heqp
          · exact hall p' hin
          · rw [heqp]
            apply updateProgressMetrics_ok _ _ _ hval
            by_cases hb : jsTruthyStr ea.primaryEmotion = true <;>
              simpa [hb, recordInteraction, updateEmotionalJourney,
                determineAIAdaptations] using hsOK

/-- Helper for the C5 witness: the sample state’s only session has its
metrics in range. -/
theorem sampleState_metricsOK :
    ∀ p ∈ sampleState.activeSessions, MetricsOK p.2.progressMetrics := by
  intro p hp
  simp only [sampleState, List.mem_singleton] at hp
  rw [hp]
  refine ⟨⟨?_, ?_⟩, ⟨?_, ?_⟩, ⟨?_, ?_⟩, ⟨?_, ?_⟩, ⟨?_, ?_⟩⟩ <;>
    norm_num [sampleSession, initializeProgressMetrics]

/-- C5 witness: the invariant theorem applied to a concrete turn on the
sample state. -/
theorem metrics_stay_in_range_witness :
    (∀ p ∈ sampleState.activeSessions, MetricsOK p.2.progressMetrics) ∧
    (∀ p' ∈ (processInteraction sampleState "s1" "hello"
        InteractionType.text Option.none (Except.error "unused") sampleOrcEnv
        0).1.activeSessions,
      MetricsOK p'.2.progressMetrics) :=
  ⟨sampleState_metricsOK,
   metrics_stay_in_range.2 sampleState "s1" "hello" InteractionType.text
     Option.none (Except.error "unused") sampleOrcEnv 0 sampleState_metricsOK⟩
